import Mathlib

/-!
# Bonfire: the actor sheet's roll handler and item buckets, the hotbar macros, the dice core

A shallow embedding of `module/sheets/actor-sheet.mjs` (`_onRoll`, `_prepareItems`) and of
`module/bonfire.mjs` (`createItemMacro`, `rollItemMacro`).  Host objects (the document
collections, the notification area, the hotbar) are explicit state; a JavaScript `TypeError`
is an explicit outcome.  The roller that `_onRoll` calls is not among the source files: the
formula parser, attribute resolver, roll evaluator and outcome classifier are modelled from
the specification, and each such definition says so.
-/

namespace Bonfire

/-! ## JavaScript values -/

/-- Truthiness of a `DOMStringMap` entry or string field: defined and not the empty string. -/
def truthy : Option String → Bool
  | none => false
  | some s => s != ""

/-- A value interpolated in a template literal or used as a property key: `undefined` reads
as the text `undefined`. -/
def jsString (o : Option String) : String := o.getD "undefined"

/-- The method `String.prototype.includes`, on character lists. -/
def includesChars : List Char → List Char → Bool
  | [], sub => sub.isEmpty
  | c :: cs, sub => sub.isPrefixOf (c :: cs) || includesChars cs sub

/-- The method `String.prototype.includes`. -/
def includes (s sub : String) : Bool := includesChars s.toList sub.toList

/-! ## Documents -/

/-- An Item document, with the fields the sheet and the macros read. -/
structure Item where
  id : String
  name : String
  type : String
  img : Option String
  systemType : Option String
  parent : Option String
  deriving DecidableEq, Repr

/-- An entry of `actor.system.skillSuites` (`skillSuiteField` of `common-template.js`). -/
structure SkillSuite where
  value : Int
  label : String
  trained : Bool
  deriving DecidableEq, Repr

/-- The roll data of an actor: dotted attribute path to number. -/
abbrev StatContext := List (String × Int)

/-- An Actor document: `system.skillSuites` and the `items` collection are partial maps,
`rollData` is what `getRollData()` returns. -/
structure Actor where
  skillSuites : String → Option SkillSuite
  items : String → Option Item
  rollData : StatContext

/-! ## `_onRoll` -/

/-- The `dataset` of the clicked element. -/
structure Dataset where
  rollType : Option String
  roll : Option String
  label : Option String
  type : Option String
  skill : Option String
  deriving DecidableEq, Repr

/-- The click event: the element's dataset and `element.closest('.item')`, which is `none`
when there is no such ancestor and otherwise carries that ancestor's `dataset.itemId`. -/
structure RollEvent where
  dataset : Dataset
  closestItem : Option (Option String)
  deriving DecidableEq, Repr

/-- The object `new Roll(formula, data)`: the roller receives the formula text and the data. -/
structure Roll where
  formula : String
  data : StatContext
  deriving DecidableEq, Repr

/-- The options of `roll.toMessage`. -/
structure RollMessage where
  flavor : String
  rollMode : String
  deriving DecidableEq, Repr

/-- What `_onRoll` does after `event.preventDefault()`. -/
inductive RollOutcome where
  | itemRoll (item : Item)
  | formulaRoll (roll : Roll) (message : RollMessage)
  | nothing
  | typeError
  deriving DecidableEq, Repr

/-- The block "Handle item rolls" of `_onRoll`: `some` when it leaves the handler (the item's
roll is returned, or `closest` gave `null`), `none` when control reaches the formula block. -/
def itemRollBranch (actor : Actor) (ev : RollEvent) : Option RollOutcome :=
  if truthy ev.dataset.rollType then
    if ev.dataset.rollType = some "item" then
      match ev.closestItem with
      | none => some RollOutcome.typeError
      | some itemId =>
        match itemId.bind actor.items with
        | some item => some (RollOutcome.itemRoll item)
        | none => none
    else none
  else none

/-- The block "Handle rolls that supply the formula directly" of `_onRoll`; `rollMode` is the
host setting `game.settings.get('core', 'rollMode')`. -/
def formulaRollBranch (rollMode : String) (actor : Actor) (ev : RollEvent) : RollOutcome :=
  if truthy ev.dataset.roll then
    let label := if truthy ev.dataset.label then "[attribute] " ++ jsString ev.dataset.label else ""
    let message : RollMessage := { flavor := label, rollMode := rollMode }
    if ev.dataset.type = some "skill" then
      match actor.skillSuites (jsString ev.dataset.skill) with
      | none => RollOutcome.typeError
      | some suite =>
        let rollString :=
          if suite.trained then
            "d20x+@skillSuites." ++ jsString ev.dataset.skill ++ ".value+@skillSuites."
              ++ jsString ev.dataset.skill ++ ".mod"
          else
            "d12x+@skillSuites." ++ jsString ev.dataset.skill ++ ".value+@skillSuites."
              ++ jsString ev.dataset.skill ++ ".mod"
        RollOutcome.formulaRoll { formula := rollString, data := actor.rollData } message
    else
      RollOutcome.formulaRoll { formula := jsString ev.dataset.roll, data := actor.rollData } message
  else RollOutcome.nothing

/-- The handler `BonfireActorSheet._onRoll`. -/
def _onRoll (rollMode : String) (actor : Actor) (ev : RollEvent) : RollOutcome :=
  match itemRollBranch actor ev with
  | some out => out
  | none => formulaRollBranch rollMode actor ev

/-- The formula of the roll that `_onRoll` hands to the roller, if it makes a formula roll. -/
def RollOutcome.rolledFormula : RollOutcome → Option String
  | RollOutcome.formulaRoll roll _ => some roll.formula
  | _ => none

/-! ## `_prepareItems` -/

/-- The object `characteristics` of `_prepareItems`. -/
structure Characteristics where
  devotions : List Item
  descriptions : List Item
  convictions : List Item
  reputations : List Item
  contacts : List Item
  flaws : List Item
  deriving DecidableEq, Repr

/-- The containers that `_prepareItems` initialises and fills. -/
structure Containers where
  gear : List Item
  attacks : List Item
  weapons : List Item
  skills : List Item
  wounds : List Item
  burdens : List Item
  expenditures : List Item
  rudiments : List Item
  contacts : List Item
  movements : List Item
  characteristics : Characteristics
  deriving DecidableEq, Repr

/-- The containers at "Initialize containers". -/
def Containers.init : Containers :=
  { gear := [], attacks := [], weapons := [], skills := [], wounds := [], burdens := [],
    expenditures := [], rudiments := [], contacts := [], movements := [],
    characteristics :=
      { devotions := [], descriptions := [], convictions := [], reputations := [],
        contacts := [], flaws := [] } }

/-- The statement `i.img = i.img || DEFAULT_TOKEN`, which updates the item in place. -/
def defaultImg (DEFAULT_TOKEN : String) (i : Item) : Item :=
  { i with img := some (if truthy i.img then jsString i.img else DEFAULT_TOKEN) }

/-- The `switch (i.system.type)` of `_prepareItems`. -/
def allocateCharacteristic (c : Characteristics) (i : Item) : Characteristics :=
  if i.systemType = some "devotion" then { c with devotions := c.devotions ++ [i] }
  else if i.systemType = some "description" then { c with descriptions := c.descriptions ++ [i] }
  else if i.systemType = some "conviction" then { c with convictions := c.convictions ++ [i] }
  else if i.systemType = some "reputation" then { c with reputations := c.reputations ++ [i] }
  else if i.systemType = some "flaw" then { c with flaws := c.flaws ++ [i] }
  else c

/-- One pass of the loop body of `_prepareItems` after the image default: the sequential
type checks, in source order. -/
def allocate (b : Containers) (i : Item) : Containers :=
  let b := if i.type = "item" then { b with gear := b.gear ++ [i] } else b
  let b := if i.type = "attack" then { b with attacks := b.attacks ++ [i] } else b
  let b := if i.type = "weapon" then { b with weapons := b.weapons ++ [i] } else b
  let b := if i.type = "skill" then { b with skills := b.skills ++ [i] } else b
  let b := if i.type = "burden" then { b with burdens := b.burdens ++ [i] } else b
  let b := if i.type = "wound" then { b with wounds := b.wounds ++ [i] } else b
  let b := if i.type = "expenditure" then { b with expenditures := b.expenditures ++ [i] } else b
  let b := if i.type = "rudiment" then { b with rudiments := b.rudiments ++ [i] } else b
  let b := if i.type = "contact" then { b with contacts := b.contacts ++ [i] } else b
  let b := if i.type = "movement" then { b with movements := b.movements ++ [i] } else b
  let b := if i.type = "characteristic" then
      { b with characteristics := allocateCharacteristic b.characteristics i } else b
  b

/-- The sheet context that `_prepareItems` reads: its `type`, `items` and prior `attacks`. -/
structure SheetContext where
  type : Option String
  items : List Item
  attacks : Option (List Item)
  deriving DecidableEq, Repr

/-- The sheet context after `_prepareItems`: the items (their images defaulted in place) and
the assigned buckets. -/
structure PreparedContext where
  type : Option String
  items : List Item
  gear : List Item
  attacks : Option (List Item)
  weapons : List Item
  characteristics : Characteristics
  contacts : List Item
  skills : List Item
  wounds : List Item
  burdens : List Item
  expenditures : List Item
  rudiments : List Item
  movements : List Item
  deriving DecidableEq, Repr

/-- The method `BonfireActorSheet._prepareItems`. -/
def _prepareItems (DEFAULT_TOKEN : String) (context : SheetContext) : PreparedContext :=
  let items := context.items.map (defaultImg DEFAULT_TOKEN)
  let b := items.foldl allocate Containers.init
  { type := context.type
    items := items
    gear := b.gear
    attacks := if context.type = some "npc" then some b.attacks else context.attacks
    weapons := b.weapons
    characteristics := b.characteristics
    contacts := b.contacts
    skills := b.skills
    wounds := b.wounds
    burdens := b.burdens
    expenditures := b.expenditures
    rudiments := b.rudiments
    movements := b.movements }

/-- The display buckets of the prepared context. -/
inductive Bucket where
  | gear | weapons | skills | burdens | wounds | expenditures | rudiments | contacts | movements
  | devotions | descriptions | convictions | reputations | flaws | characteristicContacts
  deriving DecidableEq, Repr

/-- The list held by a bucket of the prepared context. -/
def PreparedContext.bucket (c : PreparedContext) : Bucket → List Item
  | Bucket.gear => c.gear
  | Bucket.weapons => c.weapons
  | Bucket.skills => c.skills
  | Bucket.burdens => c.burdens
  | Bucket.wounds => c.wounds
  | Bucket.expenditures => c.expenditures
  | Bucket.rudiments => c.rudiments
  | Bucket.contacts => c.contacts
  | Bucket.movements => c.movements
  | Bucket.devotions => c.characteristics.devotions
  | Bucket.descriptions => c.characteristics.descriptions
  | Bucket.convictions => c.characteristics.convictions
  | Bucket.reputations => c.characteristics.reputations
  | Bucket.flaws => c.characteristics.flaws
  | Bucket.characteristicContacts => c.characteristics.contacts

/-- The container that the loop of `_prepareItems` fills for a bucket. -/
def Containers.bucket (b : Containers) : Bucket → List Item
  | Bucket.gear => b.gear
  | Bucket.weapons => b.weapons
  | Bucket.skills => b.skills
  | Bucket.burdens => b.burdens
  | Bucket.wounds => b.wounds
  | Bucket.expenditures => b.expenditures
  | Bucket.rudiments => b.rudiments
  | Bucket.contacts => b.contacts
  | Bucket.movements => b.movements
  | Bucket.devotions => b.characteristics.devotions
  | Bucket.descriptions => b.characteristics.descriptions
  | Bucket.convictions => b.characteristics.convictions
  | Bucket.reputations => b.characteristics.reputations
  | Bucket.flaws => b.characteristics.flaws
  | Bucket.characteristicContacts => b.characteristics.contacts

/-- The tag-to-bucket mapping of the specification's design note: the bucket of an item is a
function of its type tag and, for a characteristic, of its `system.type` tag. -/
def dispatch (i : Item) : Option Bucket :=
  if i.type = "item" then some Bucket.gear
  else if i.type = "weapon" then some Bucket.weapons
  else if i.type = "skill" then some Bucket.skills
  else if i.type = "burden" then some Bucket.burdens
  else if i.type = "wound" then some Bucket.wounds
  else if i.type = "expenditure" then some Bucket.expenditures
  else if i.type = "rudiment" then some Bucket.rudiments
  else if i.type = "contact" then some Bucket.contacts
  else if i.type = "movement" then some Bucket.movements
  else if i.type = "characteristic" then
    if i.systemType = some "devotion" then some Bucket.devotions
    else if i.systemType = some "description" then some Bucket.descriptions
    else if i.systemType = some "conviction" then some Bucket.convictions
    else if i.systemType = some "reputation" then some Bucket.reputations
    else if i.systemType = some "flaw" then some Bucket.flaws
    else none
  else none

/-! ## Hotbar macros -/

/-- A Macro document. -/
structure Macro where
  name : String
  type : String
  img : Option String
  command : String
  itemMacroFlag : Bool
  deriving DecidableEq, Repr

/-- The data dropped on the hotbar. -/
structure DropData where
  type : String
  uuid : String
  deriving DecidableEq, Repr

/-- The host state the macro functions act on: the collection `game.macros`, the calls of
`game.user.assignHotbarMacro` and of `ui.notifications.warn`, oldest first. -/
structure World where
  macros : List Macro
  hotbar : List (Macro × Nat)
  warnings : List String
  deriving DecidableEq, Repr

/-- How `createItemMacro` ends: `return;`, the returned notification, `return false`, or a
`TypeError` on `item.name` when no item was loaded. -/
inductive MacroResult where
  | undefined
  | notification
  | returnedFalse
  | typeError
  deriving DecidableEq, Repr

/-- The command text of an item macro. -/
def macroCommand (uuid : String) : String := "game.bonfire.rollItemMacro(\"" ++ uuid ++ "\");"

/-- The function `createItemMacro`; `fromDropData` is the host's `Item.fromDropData`, and
`Macro.create` adds the new document to `game.macros`. -/
def createItemMacro (fromDropData : DropData → Option Item) (w : World) (data : DropData)
    (slot : Nat) : World × MacroResult :=
  if data.type ≠ "Item" then (w, MacroResult.undefined)
  else if !includes data.uuid "Actor." && !includes data.uuid "Token." then
    ({ w with warnings := w.warnings ++ ["You can only create macro buttons for owned Items"] },
      MacroResult.notification)
  else
    match fromDropData data with
    | none => (w, MacroResult.typeError)
    | some item =>
      let command := macroCommand data.uuid
      match w.macros.find? (fun m => m.name = item.name && m.command = command) with
      | some macro_ =>
        ({ w with hotbar := w.hotbar ++ [(macro_, slot)] }, MacroResult.returnedFalse)
      | none =>
        let created : Macro :=
          { name := item.name, type := "script", img := item.img, command := command,
            itemMacroFlag := true }
        ({ w with macros := w.macros ++ [created], hotbar := w.hotbar ++ [(created, slot)] },
          MacroResult.returnedFalse)

/-- What the callback of `rollItemMacro` does once the item promise resolves. -/
inductive MacroRoll where
  | rolled (item : Item)
  | warned (message : String)
  deriving DecidableEq, Repr

/-- The function `rollItemMacro`; `fromDropData` is the host's `Item.fromDropData`. -/
def rollItemMacro (fromDropData : DropData → Option Item) (itemUuid : String) : MacroRoll :=
  let dropData : DropData := { type := "Item", uuid := itemUuid }
  match fromDropData dropData with
  | none =>
    MacroRoll.warned ("Could not find item " ++ itemUuid
      ++ ". You may need to delete and recreate this macro.")
  | some item =>
    if item.parent.isNone then
      MacroRoll.warned ("Could not find item " ++ item.name
        ++ ". You may need to delete and recreate this macro.")
    else MacroRoll.rolled item

/-! ## The dice core of the specification

The roller behind `new Roll(...)` is not among the source files; the parser, resolver,
evaluator and classifier below follow the specification's component contracts. -/

/-- Modelled from the spec: a dice term of a `RollFormula` (§3), `count` dice of `sides` faces,
`exploding` for re-roll-and-add on the maximum face. The roller class is missing from the
source files. -/
structure DiceTerm where
  count : Nat
  sides : Nat
  exploding : Bool
  deriving DecidableEq, Repr

/-- Modelled from the spec: an arithmetic term of the modifier expression (§3, §6), an integer
literal or an attribute placeholder `@path.to.attribute`. The roller class is missing from the
source files. -/
inductive ModTerm where
  | literal (n : Int)
  | placeholder (path : String)
  deriving DecidableEq, Repr

/-- Modelled from the spec: a signed term `{+|-} term` of the modifier expression (§6). The
roller class is missing from the source files. -/
structure Modifier where
  negative : Bool
  term : ModTerm
  deriving DecidableEq, Repr

/-- Modelled from the spec: the parsed `RollFormula` (§3). The roller class is missing from
the source files. -/
structure RollFormula where
  terms : List DiceTerm
  modifierExpression : List Modifier
  deriving DecidableEq, Repr

/-- Modelled from the spec: the error taxonomy of §7. The roller class is missing from the
source files. -/
inductive FormulaError where
  | malformedFormula
  | invalidExplodeTarget
  | unresolvedReference (path : String)
  deriving DecidableEq, Repr

/-- Modelled from the spec: the text before the first sign and the signed pieces after it,
for the shape `dice [{+|-} term]*` of §6. The formula parser is missing from the source
files. -/
def splitTerms : List Char → List Char × List (Bool × List Char)
  | [] => ([], [])
  | c :: cs =>
    if c = '+' then ([], (false, (splitTerms cs).1) :: (splitTerms cs).2)
    else if c = '-' then ([], (true, (splitTerms cs).1) :: (splitTerms cs).2)
    else (c :: (splitTerms cs).1, (splitTerms cs).2)

/-- Modelled from the spec: a character of a path segment, a letter, a digit or an underscore
(§4.1 "dot-separated path segments"). The formula parser is missing from the source files. -/
def isSegmentChar (c : Char) : Bool := c.isAlphanum || c = '_'

/-- Modelled from the spec: whether the text is segments separated by dots, the flag saying
that the segment being read already has a character (§4.1). The formula parser is missing
from the source files. -/
def segmentsOk : Bool → List Char → Bool
  | started, [] => started
  | started, c :: cs =>
    if c = '.' then started && segmentsOk false cs
    else isSegmentChar c && segmentsOk true cs

/-- Modelled from the spec: a non-empty sequence of dot-separated path segments (§4.1). The
formula parser is missing from the source files. -/
def isPath (cs : List Char) : Bool := segmentsOk false cs

/-- Modelled from the spec: a non-empty run of decimal digits, an integer literal (§6). The
formula parser is missing from the source files. -/
def allDigits (cs : List Char) : Bool := !cs.isEmpty && cs.all Char.isDigit

/-- Modelled from the spec: the value of a run of decimal digits. The formula parser is
missing from the source files. -/
def digitsValue (cs : List Char) : Nat := cs.foldl (fun n c => 10 * n + (c.toNat - 48)) 0

/-- Modelled from the spec: a `term` of §6, an integer literal or `@path.to.attribute`;
anything else is an unrecognized token (§4.1). The formula parser is missing from the source
files. -/
def parseModifier (piece : Bool × List Char) : Except FormulaError Modifier :=
  match piece.2 with
  | '@' :: path =>
    if isPath path then Except.ok { negative := piece.1, term := ModTerm.placeholder (String.mk path) }
    else Except.error FormulaError.malformedFormula
  | body =>
    if allDigits body then
      Except.ok { negative := piece.1, term := ModTerm.literal (digitsValue body) }
    else Except.error FormulaError.malformedFormula

/-- Modelled from the spec: the terms of the arithmetic tail, in order, the first failure
surfacing (§4.1). The formula parser is missing from the source files. -/
def parseModifiers : List (Bool × List Char) → Except FormulaError (List Modifier)
  | [] => Except.ok []
  | piece :: rest =>
    match parseModifier piece with
    | Except.error e => Except.error e
    | Except.ok m =>
      match parseModifiers rest with
      | Except.error e => Except.error e
      | Except.ok ms => Except.ok (m :: ms)

/-- Modelled from the spec: the dice term `[N]dS[xS]` (§4.1, §6); `N` defaults to 1, `count`
is at least 1 and `sides` at least 2 (§3), and an exploding suffix naming other sides is an
`InvalidExplodeTarget`. The suffix may be a lone `x`, read as `xS`: §4.1 gives
`d20x ≡ 1d20x20` as a formula of the language. The formula parser is missing from the source
files. -/
def parseDice (cs : List Char) : Except FormulaError DiceTerm :=
  let count := if (cs.takeWhile Char.isDigit).isEmpty then 1 else digitsValue (cs.takeWhile Char.isDigit)
  match cs.dropWhile Char.isDigit with
  | 'd' :: r =>
    let sides := digitsValue (r.takeWhile Char.isDigit)
    if (r.takeWhile Char.isDigit).isEmpty || count = 0 || sides < 2 then
      Except.error FormulaError.malformedFormula
    else
      match r.dropWhile Char.isDigit with
      | [] => Except.ok { count := count, sides := sides, exploding := false }
      | 'x' :: t =>
        if t.isEmpty then Except.ok { count := count, sides := sides, exploding := true }
        else if allDigits t then
          if digitsValue t = sides then Except.ok { count := count, sides := sides, exploding := true }
          else Except.error FormulaError.invalidExplodeTarget
        else Except.error FormulaError.malformedFormula
      | _ => Except.error FormulaError.malformedFormula
  | _ => Except.error FormulaError.malformedFormula

/-- Modelled from the spec: `parse(formulaString) -> RollFormula` (§4.1) for the mini-language
`[N]d S[xS] [{+|-} term]*` (§6), whitespace being insignificant. The formula parser is missing
from the source files. -/
def parseChars (cs : List Char) : Except FormulaError RollFormula :=
  let text := cs.filter (fun c => !c.isWhitespace)
  match parseDice (splitTerms text).1 with
  | Except.error e => Except.error e
  | Except.ok dice =>
    match parseModifiers (splitTerms text).2 with
    | Except.error e => Except.error e
    | Except.ok ms => Except.ok { terms := [dice], modifierExpression := ms }

/-- Modelled from the spec: the parser on a formula string (§4.1). The formula parser is
missing from the source files. -/
def parse (formula : String) : Except FormulaError RollFormula := parseChars formula.toList

/-- Modelled from the spec: the sentences of the formula mini-language
`[N]d S[xS] [{+|-} term]*` (§6), the strings that the parser of §4.1 accepts. The formula
parser is missing from the source files. -/
def isSentence (formula : String) : Bool :=
  match parse formula with
  | Except.ok _ => true
  | Except.error _ => false

/-- Modelled from the spec: the placeholders of a formula, in order (§3). The attribute
resolver is missing from the source files. -/
def placeholders : List Modifier → List String
  | [] => []
  | m :: ms =>
    match m.term with
    | ModTerm.placeholder p => p :: placeholders ms
    | ModTerm.literal _ => placeholders ms

/-- Modelled from the spec: the resolver on the modifier expression, each placeholder looked
up by its exact dotted path, absence raising `UnresolvedReference` with that path (§4.2). The
attribute resolver is missing from the source files. -/
def resolveModifiers (ctx : StatContext) : List Modifier → Except FormulaError (List Modifier)
  | [] => Except.ok []
  | m :: ms =>
    match m.term with
    | ModTerm.literal n =>
      match resolveModifiers ctx ms with
      | Except.error e => Except.error e
      | Except.ok rs => Except.ok ({ negative := m.negative, term := ModTerm.literal n } :: rs)
    | ModTerm.placeholder p =>
      match ctx.lookup p with
      | none => Except.error (FormulaError.unresolvedReference p)
      | some v =>
        match resolveModifiers ctx ms with
        | Except.error e => Except.error e
        | Except.ok rs => Except.ok ({ negative := m.negative, term := ModTerm.literal v } :: rs)

/-- Modelled from the spec: `resolve(formula, statContext) -> ResolvedFormula` (§4.2). The
attribute resolver is missing from the source files. -/
def resolve (formula : RollFormula) (ctx : StatContext) : Except FormulaError RollFormula :=
  match resolveModifiers ctx formula.modifierExpression with
  | Except.error e => Except.error e
  | Except.ok ms => Except.ok { terms := formula.terms, modifierExpression := ms }

/-- Modelled from the spec: one rolled face of the breakdown and whether it triggered a
further explosion (§3 `termBreakdown`). The roll evaluator is missing from the source
files. -/
structure Face where
  value : Nat
  exploded : Bool
  deriving DecidableEq, Repr

/-- Modelled from the spec: the `RollResult` of §3. The roll evaluator is missing from the
source files. -/
structure RollResult where
  total : Int
  termBreakdown : List (List Face)
  isCriticalFace : Bool
  deriving DecidableEq, Repr

/-- Modelled from the spec: one die and its explosion chain (§4.3): a face is drawn from the
random source, and an exploding die that lands on `sides` triggers one more roll of the same
size, as long as the new face is again the maximum. The random source is the sequence of
faces it returns; the result is the chain and the rest of the source, `none` when the
sequence ends before the chain does. The roll evaluator is missing from the source files. -/
def rollChain (sides : Nat) (exploding : Bool) : List Nat → Option (List Face × List Nat)
  | [] => none
  | face :: source =>
    if exploding && face = sides then
      match rollChain sides exploding source with
      | none => none
      | some (chain, rest) => some ({ value := face, exploded := true } :: chain, rest)
    else some ([{ value := face, exploded := false }], source)

/-- Modelled from the spec: `count` independent dice of a term, each with its chain, in roll
order (§4.3). The roll evaluator is missing from the source files. -/
def rollDice (sides : Nat) (exploding : Bool) : Nat → List Nat → Option (List (List Face) × List Nat)
  | 0, source => some ([], source)
  | count + 1, source =>
    match rollChain sides exploding source with
    | none => none
    | some (chain, rest) =>
      match rollDice sides exploding count rest with
      | none => none
      | some (chains, rest2) => some (chain :: chains, rest2)

/-- Modelled from the spec: the sum of the faces of a chain, the amount it adds to the term's
running total (§4.3). The roll evaluator is missing from the source files. -/
def chainTotal (chain : List Face) : Nat := (chain.map Face.value).sum

/-- Modelled from the spec: whether a die landed on the maximum face on its first roll (§3
`isCriticalFace`). The roll evaluator is missing from the source files. -/
def chainIsCritical (sides : Nat) (chain : List Face) : Bool :=
  match chain with
  | [] => false
  | first :: _ => first.value = sides

/-- Modelled from the spec: the dice terms in order, giving per term its chains, and the rest
of the random source (§4.3). The roll evaluator is missing from the source files. -/
def rollTerms : List DiceTerm → List Nat → Option (List (DiceTerm × List (List Face)) × List Nat)
  | [], source => some ([], source)
  | t :: ts, source =>
    match rollDice t.sides t.exploding t.count source with
    | none => none
    | some (chains, rest) =>
      match rollTerms ts rest with
      | none => none
      | some (results, rest2) => some ((t, chains) :: results, rest2)

/-- Modelled from the spec: the value of the now-literal modifier expression (§4.3), `none`
when a placeholder is left. The roll evaluator is missing from the source files. -/
def modifierValue : List Modifier → Option Int
  | [] => some 0
  | m :: ms =>
    match m.term, modifierValue ms with
    | ModTerm.literal n, some v => some ((if m.negative then -n else n) + v)
    | _, _ => none

/-- Modelled from the spec: `evaluate(resolvedFormula, randomSource) -> RollResult` (§4.3):
the sum of all term totals plus the modifier value, the breakdown in roll order, and the
critical-face flag. The roll evaluator is missing from the source files. -/
def evaluate (formula : RollFormula) (source : List Nat) : Option RollResult :=
  match rollTerms formula.terms source, modifierValue formula.modifierExpression with
  | some (results, _), some modifier =>
    some
      { total := ((results.map (fun r => ((r.2.map chainTotal).sum : Nat))).sum : Nat) + modifier
        termBreakdown := results.map (fun r => r.2.flatten)
        isCriticalFace := results.any (fun r => r.2.any (chainIsCritical r.1.sides)) }
  | _, _ => none

/-- Modelled from the spec: the pipeline parse, resolve, evaluate of §2 on a formula string.
The roller class is missing from the source files. -/
def rollFormula (formula : String) (ctx : StatContext) (source : List Nat) :
    Except FormulaError (Option RollResult) :=
  match parse formula with
  | Except.error e => Except.error e
  | Except.ok parsed =>
    match resolve parsed ctx with
    | Except.error e => Except.error e
    | Except.ok resolved => Except.ok (evaluate resolved source)

/-- Modelled from the spec: the target of a check, a roll result (opposed check) or a static
integer (difficulty check) (§4.4). The outcome classifier is missing from the source files. -/
inductive Target where
  | opposed (result : RollResult)
  | static (difficulty : Int)
  deriving DecidableEq, Repr

/-- Modelled from the spec: the `CheckOutcome` of §3. The outcome classifier is missing from
the source files. -/
structure CheckOutcome where
  actorTotal : Int
  targetTotal : Int
  succeeded : Bool
  margin : Int
  deriving DecidableEq, Repr

/-- Modelled from the spec: `classify(actorResult, target) -> CheckOutcome` (§4.4),
`succeeded = actorTotal > targetTotal` for opposed checks, `actorTotal >= difficulty` for
static checks, and `margin` the difference. The outcome classifier is missing from the source
files. -/
def classify (actorResult : RollResult) : Target → CheckOutcome
  | Target.opposed result =>
    { actorTotal := actorResult.total, targetTotal := result.total,
      succeeded := decide (actorResult.total > result.total),
      margin := actorResult.total - result.total }
  | Target.static difficulty =>
    { actorTotal := actorResult.total, targetTotal := difficulty,
      succeeded := decide (actorResult.total ≥ difficulty),
      margin := actorResult.total - difficulty }

/-- The test `if (gmTotal < playerTotal) playerSucceeded++` of the commented attack-check
experiment in the `.item-attack-test` handler of `actor-sheet.mjs` (lines 368-392); both
totals are totals of rolls (`new Roll("1d20")`, with an explosion roll added). -/
def attackExperimentSucceeded (gmTotal playerTotal : Int) : Bool := decide (gmTotal < playerTotal)

/-- The test `if (gmTotal <= playerTotal) playerSucceeded++` of the commented difficulty
experiment (Routine to Challenging) in the `.item-attack-test` handler of `actor-sheet.mjs`
(lines 407-436); both totals are totals of rolls: the player's `1d20+20` and the GM's
`1d20+i` for the difficulty `i`, each with an explosion roll added. -/
def difficultyExperimentSucceeded (gmTotal playerTotal : Int) : Bool :=
  decide (gmTotal ≤ playerTotal)

/-! ## Examples -/

/-- An example actor: an `alchemy` skill entry of value 3, no items, and the given roll data. -/
def alchemist (trained : Bool) (rollData : StatContext) : Actor :=
  { skillSuites := fun k =>
      if k = "alchemy" then some { value := 3, label := "Alchemy", trained := trained } else none
    items := fun _ => none
    rollData := rollData }

/-- An example click on the rollable `alchemy` skill of the sheet. -/
def alchemyClick : RollEvent :=
  { dataset :=
      { rollType := none, roll := some "d20x+@skillSuites.alchemy.value+@skillSuites.alchemy.mod",
        label := none, type := some "skill", skill := some "alchemy" }
    closestItem := none }

/-- An example click on a rollable skill `stealth`, for which the example actor has no
entry. -/
def stealthClick : RollEvent :=
  { dataset :=
      { rollType := none, roll := some "d20x+@skillSuites.stealth.value+@skillSuites.stealth.mod",
        label := none, type := some "skill", skill := some "stealth" }
    closestItem := none }

/-- An example owned item, a sword of the actor `Actor.a1`. -/
def sword : Item :=
  { id := "i1", name := "Sword", type := "weapon", img := none, systemType := none,
    parent := some "a1" }

/-! # Theorems -/

/-! ## The roll handler -/

/-- The outcome of `_onRoll` on a skill roll whose entry exists, the item block falling
through. -/
theorem onRoll_skill_outcome (rollMode : String) (actor : Actor) (ev : RollEvent) (s : String)
    (suite : SkillSuite)
    (hroll : truthy ev.dataset.roll = true)
    (htype : ev.dataset.type = some "skill")
    (hskill : ev.dataset.skill = some s)
    (hitem : itemRollBranch actor ev = none)
    (hsuite : actor.skillSuites s = some suite) :
    _onRoll rollMode actor ev
      = RollOutcome.formulaRoll
          { formula :=
              if suite.trained = true then
                "d20x+@skillSuites." ++ s ++ ".value+@skillSuites." ++ s ++ ".mod"
              else "d12x+@skillSuites." ++ s ++ ".value+@skillSuites." ++ s ++ ".mod"
            data := actor.rollData }
          { flavor :=
              if truthy ev.dataset.label then "[attribute] " ++ jsString ev.dataset.label else ""
            rollMode := rollMode } := by
  simp only [_onRoll, hitem, formulaRollBranch, hroll, htype, hskill, jsString, Option.getD_some,
    if_true, hsuite]

/-- C1, as stated, fails at a skill key without an entry: the example actor has no
`skillSuites.stealth`; the click has a non-empty `roll`, type `skill` and skill key `stealth`,
and the item block falls through; reading `skillSuites[stealth].trained` throws a `TypeError`
and no formula, neither the `d20x` nor the `d12x` one, is handed to the roller. -/
theorem onRoll_skill_without_entry :
    truthy stealthClick.dataset.roll = true
    ∧ stealthClick.dataset.type = some "skill"
    ∧ stealthClick.dataset.skill = some "stealth"
    ∧ itemRollBranch (alchemist false []) stealthClick = none
    ∧ (alchemist false []).skillSuites "stealth" = none
    ∧ _onRoll "publicroll" (alchemist false []) stealthClick = RollOutcome.typeError
    ∧ (_onRoll "publicroll" (alchemist false []) stealthClick).rolledFormula = none := by
  refine ⟨by decide, by decide, by decide, by decide, by decide, by decide, by decide⟩

/-- C1, amended (`_onRoll`, skill rolls): when the dataset has a non-empty `roll`, type `skill` and
skill key `s`, the item block falls through and the actor has an entry `skillSuites[s]`, the
roll handed to the roller has exactly the formula `d20x+@skillSuites.s.value+@skillSuites.s.mod`
if the entry is trained and `d12x+@skillSuites.s.value+@skillSuites.s.mod` otherwise, together
with the actor's roll data; the two formulas are `d20x` and `d12x` followed by the same text;
and the formula is chosen before any substitution: it still holds the placeholders and is the
same whatever the roll data are. -/
theorem onRoll_skill_formula (rollMode : String) (actor : Actor) (ev : RollEvent) (s : String)
    (suite : SkillSuite)
    (hroll : truthy ev.dataset.roll = true)
    (htype : ev.dataset.type = some "skill")
    (hskill : ev.dataset.skill = some s)
    (hitem : itemRollBranch actor ev = none)
    (hsuite : actor.skillSuites s = some suite) :
    _onRoll rollMode actor ev
      = RollOutcome.formulaRoll
          { formula :=
              if suite.trained = true then
                "d20x+@skillSuites." ++ s ++ ".value+@skillSuites." ++ s ++ ".mod"
              else "d12x+@skillSuites." ++ s ++ ".value+@skillSuites." ++ s ++ ".mod"
            data := actor.rollData }
          { flavor :=
              if truthy ev.dataset.label then "[attribute] " ++ jsString ev.dataset.label else ""
            rollMode := rollMode }
    ∧ ("d20x+@skillSuites." ++ s ++ ".value+@skillSuites." ++ s ++ ".mod"
        = "d20x" ++ ("+@skillSuites." ++ s ++ ".value+@skillSuites." ++ s ++ ".mod")
      ∧ "d12x+@skillSuites." ++ s ++ ".value+@skillSuites." ++ s ++ ".mod"
        = "d12x" ++ ("+@skillSuites." ++ s ++ ".value+@skillSuites." ++ s ++ ".mod"))
    ∧ (∀ data : StatContext,
        (_onRoll rollMode { actor with rollData := data } ev).rolledFormula
          = (_onRoll rollMode actor ev).rolledFormula) := by
  refine ⟨onRoll_skill_outcome rollMode actor ev s suite hroll htype hskill hitem hsuite,
    ⟨?_, ?_⟩, ?_⟩
  · have h : ("d20x+@skillSuites." : String) = "d20x" ++ "+@skillSuites." := by decide
    rw [h]
    simp only [String.append_assoc]
  · have h : ("d12x+@skillSuites." : String) = "d12x" ++ "+@skillSuites." := by decide
    rw [h]
    simp only [String.append_assoc]
  · intro data
    rw [onRoll_skill_outcome rollMode actor ev s suite hroll htype hskill hitem hsuite,
      onRoll_skill_outcome rollMode { actor with rollData := data } ev s suite hroll htype hskill
        hitem hsuite]
    rfl

/-- The untrained alchemy roll of the specification's third scenario. -/
theorem onRoll_skill_formula_witness :
    _onRoll "publicroll"
        (alchemist false [("skillSuites.alchemy.value", 3), ("skillSuites.alchemy.mod", 1)])
        alchemyClick
      = RollOutcome.formulaRoll
          { formula := "d12x+@skillSuites.alchemy.value+@skillSuites.alchemy.mod"
            data := [("skillSuites.alchemy.value", 3), ("skillSuites.alchemy.mod", 1)] }
          { flavor := "", rollMode := "publicroll" } :=
  (onRoll_skill_formula "publicroll"
    (alchemist false [("skillSuites.alchemy.value", 3), ("skillSuites.alchemy.mod", 1)])
    alchemyClick "alchemy" ⟨3, "Alchemy", false⟩ (by decide) (by decide) (by decide) (by decide)
    (by decide)).1

/-- C10 (`_onRoll`, direct formulas): when `dataset.roll` is a non-empty text `r`, the type is
not `skill` and the item block falls through, the handler rolls exactly `r` against the
actor's roll data and returns that roll; when `dataset.roll` is absent or empty the handler
makes no formula roll. -/
theorem onRoll_direct_formula (rollMode : String) (actor : Actor) (ev : RollEvent) :
    (∀ r : String, ev.dataset.roll = some r → r ≠ "" → ev.dataset.type ≠ some "skill" →
      itemRollBranch actor ev = none →
      _onRoll rollMode actor ev
        = RollOutcome.formulaRoll { formula := r, data := actor.rollData }
            { flavor :=
                if truthy ev.dataset.label then "[attribute] " ++ jsString ev.dataset.label
                else ""
              rollMode := rollMode })
    ∧ (ev.dataset.roll = none ∨ ev.dataset.roll = some "" →
        ∀ (roll : Roll) (message : RollMessage),
          _onRoll rollMode actor ev ≠ RollOutcome.formulaRoll roll message) := by
  constructor
  · intro r hr hne htype hitem
    have htruthy : truthy ev.dataset.roll = true := by
      rw [hr]
      simpa [truthy] using hne
    rw [hr] at htruthy
    simp [_onRoll, hitem, formulaRollBranch, htruthy, htype, hr, jsString]
  · intro habsent roll message
    have htruthy : truthy ev.dataset.roll = false := by
      rcases habsent with h | h <;> rw [h] <;> decide
    unfold _onRoll itemRollBranch
    split_ifs with h1 h2
    · cases hc : ev.closestItem with
      | none => simp
      | some itemId =>
        cases hi : itemId.bind actor.items with
        | none => simp [hi, formulaRollBranch, htruthy]
        | some item => simp [hi]
    · simp [formulaRollBranch, htruthy]
    · simp [formulaRollBranch, htruthy]

/-- The initiative-style formula `1d4+@init.value` on a plain rollable element. -/
theorem onRoll_direct_formula_witness :
    _onRoll "publicroll"
        { skillSuites := fun _ => none, items := fun _ => none, rollData := [("init.value", 2)] }
        { dataset :=
            { rollType := none, roll := some "1d4+@init.value", label := some "Initiative",
              type := none, skill := none }
          closestItem := none }
      = RollOutcome.formulaRoll { formula := "1d4+@init.value", data := [("init.value", 2)] }
          { flavor := "[attribute] Initiative", rollMode := "publicroll" } :=
  (onRoll_direct_formula "publicroll"
    { skillSuites := fun _ => none, items := fun _ => none, rollData := [("init.value", 2)] }
    { dataset :=
        { rollType := none, roll := some "1d4+@init.value", label := some "Initiative",
          type := none, skill := none }
      closestItem := none }).1 "1d4+@init.value" rfl (by decide) (by decide) (by decide)

/-! ## Lemmas on the item buckets -/

theorem type_cases (t : String) :
    t = "item" ∨ t = "attack" ∨ t = "weapon" ∨ t = "skill" ∨ t = "burden" ∨ t = "wound"
      ∨ t = "expenditure" ∨ t = "rudiment" ∨ t = "contact" ∨ t = "movement"
      ∨ t = "characteristic"
      ∨ (t ≠ "item" ∧ t ≠ "attack" ∧ t ≠ "weapon" ∧ t ≠ "skill" ∧ t ≠ "burden" ∧ t ≠ "wound"
        ∧ t ≠ "expenditure" ∧ t ≠ "rudiment" ∧ t ≠ "contact" ∧ t ≠ "movement"
        ∧ t ≠ "characteristic") := by
  by_cases h1 : t = "item"
  · exact Or.inl h1
  by_cases h2 : t = "attack"
  · exact Or.inr (Or.inl h2)
  by_cases h3 : t = "weapon"
  · exact Or.inr (Or.inr (Or.inl h3))
  by_cases h4 : t = "skill"
  · exact Or.inr (Or.inr (Or.inr (Or.inl h4)))
  by_cases h5 : t = "burden"
  · exact Or.inr (Or.inr (Or.inr (Or.inr (Or.inl h5))))
  by_cases h6 : t = "wound"
  · exact Or.inr (Or.inr (Or.inr (Or.inr (Or.inr (Or.inl h6)))))
  by_cases h7 : t = "expenditure"
  · exact Or.inr (Or.inr (Or.inr (Or.inr (Or.inr (Or.inr (Or.inl h7))))))
  by_cases h8 : t = "rudiment"
  · exact Or.inr (Or.inr (Or.inr (Or.inr (Or.inr (Or.inr (Or.inr (Or.inl h8)))))))
  by_cases h9 : t = "contact"
  · exact Or.inr (Or.inr (Or.inr (Or.inr (Or.inr (Or.inr (Or.inr (Or.inr (Or.inl h9))))))))
  by_cases h10 : t = "movement"
  · exact Or.inr (Or.inr (Or.inr (Or.inr (Or.inr (Or.inr (Or.inr (Or.inr (Or.inr (Or.inl h10)))))))))
  by_cases h11 : t = "characteristic"
  · exact Or.inr (Or.inr (Or.inr (Or.inr (Or.inr (Or.inr (Or.inr (Or.inr (Or.inr (Or.inr
      (Or.inl h11))))))))))
  exact Or.inr (Or.inr (Or.inr (Or.inr (Or.inr (Or.inr (Or.inr (Or.inr (Or.inr (Or.inr (Or.inr
    ⟨h1, h2, h3, h4, h5, h6, h7, h8, h9, h10, h11⟩))))))))))

theorem systemType_cases (t : Option String) :
    t = some "devotion" ∨ t = some "description" ∨ t = some "conviction"
      ∨ t = some "reputation" ∨ t = some "flaw"
      ∨ (t ≠ some "devotion" ∧ t ≠ some "description" ∧ t ≠ some "conviction"
        ∧ t ≠ some "reputation" ∧ t ≠ some "flaw") := by
  by_cases h1 : t = some "devotion"
  · exact Or.inl h1
  by_cases h2 : t = some "description"
  · exact Or.inr (Or.inl h2)
  by_cases h3 : t = some "conviction"
  · exact Or.inr (Or.inr (Or.inl h3))
  by_cases h4 : t = some "reputation"
  · exact Or.inr (Or.inr (Or.inr (Or.inl h4)))
  by_cases h5 : t = some "flaw"
  · exact Or.inr (Or.inr (Or.inr (Or.inr (Or.inl h5))))
  exact Or.inr (Or.inr (Or.inr (Or.inr (Or.inr ⟨h1, h2, h3, h4, h5⟩))))

/-- One pass of the loop body appends the item to the container its tags dispatch to and
leaves every other container as it was. -/
theorem allocate_bucket (b : Containers) (i : Item) (k : Bucket) :
    (allocate b i).bucket k = if dispatch i = some k then b.bucket k ++ [i] else b.bucket k := by
  rcases type_cases i.type with h | h | h | h | h | h | h | h | h | h | h | h
  case inr.inr.inr.inr.inr.inr.inr.inr.inr.inr.inr =>
    obtain ⟨h1, h2, h3, h4, h5, h6, h7, h8, h9, h10, h11⟩ := h
    cases k <;>
      simp [allocate, dispatch, Containers.bucket, h1, h2, h3, h4, h5, h6, h7, h8, h9, h10, h11]
  case inr.inr.inr.inr.inr.inr.inr.inr.inr.inr.inl =>
    rcases systemType_cases i.systemType with g | g | g | g | g | g
    case inr.inr.inr.inr.inr =>
      obtain ⟨g1, g2, g3, g4, g5⟩ := g
      cases k <;>
        simp [allocate, dispatch, Containers.bucket, allocateCharacteristic, h, g1, g2, g3, g4, g5]
    all_goals
      cases k <;> simp [allocate, dispatch, Containers.bucket, allocateCharacteristic, h, g]
  all_goals cases k <;> simp [allocate, dispatch, Containers.bucket, h]

/-- The loop of `_prepareItems` adds to each container the items dispatched to it, in input
order. -/
theorem foldl_allocate_bucket (k : Bucket) :
    ∀ (items : List Item) (b : Containers),
      (items.foldl allocate b).bucket k
        = b.bucket k ++ items.filter (fun i => decide (dispatch i = some k)) := by
  intro items
  induction items with
  | nil => intro b; simp
  | cons i rest ih =>
    intro b
    rw [List.foldl_cons, ih, allocate_bucket]
    by_cases hp : dispatch i = some k
    · simp [hp, List.filter_cons]
    · simp [hp, List.filter_cons]

theorem prepared_bucket (tok : String) (context : SheetContext) (k : Bucket) :
    (_prepareItems tok context).bucket k
      = ((context.items.map (defaultImg tok)).foldl allocate Containers.init).bucket k := by
  cases k <;> rfl

theorem init_bucket (k : Bucket) : Containers.init.bucket k = [] := by
  cases k <;> rfl

theorem dispatch_gear (i : Item) :
    decide (dispatch i = some Bucket.gear) = decide (i.type = "item") := by
  rcases type_cases i.type with h | h | h | h | h | h | h | h | h | h | h | h
  case inr.inr.inr.inr.inr.inr.inr.inr.inr.inr.inr =>
    obtain ⟨h1, h2, h3, h4, h5, h6, h7, h8, h9, h10, h11⟩ := h
    simp [dispatch, h1, h2, h3, h4, h5, h6, h7, h8, h9, h10, h11]
  case inr.inr.inr.inr.inr.inr.inr.inr.inr.inr.inl =>
    rcases systemType_cases i.systemType with g | g | g | g | g | g
    case inr.inr.inr.inr.inr =>
      obtain ⟨g1, g2, g3, g4, g5⟩ := g
      simp [dispatch, h, g1, g2, g3, g4, g5]
    all_goals simp [dispatch, h, g]
  all_goals simp [dispatch, h]

theorem dispatch_weapons (i : Item) :
    decide (dispatch i = some Bucket.weapons) = decide (i.type = "weapon") := by
  rcases type_cases i.type with h | h | h | h | h | h | h | h | h | h | h | h
  case inr.inr.inr.inr.inr.inr.inr.inr.inr.inr.inr =>
    obtain ⟨h1, h2, h3, h4, h5, h6, h7, h8, h9, h10, h11⟩ := h
    simp [dispatch, h1, h2, h3, h4, h5, h6, h7, h8, h9, h10, h11]
  case inr.inr.inr.inr.inr.inr.inr.inr.inr.inr.inl =>
    rcases systemType_cases i.systemType with g | g | g | g | g | g
    case inr.inr.inr.inr.inr =>
      obtain ⟨g1, g2, g3, g4, g5⟩ := g
      simp [dispatch, h, g1, g2, g3, g4, g5]
    all_goals simp [dispatch, h, g]
  all_goals simp [dispatch, h]

theorem dispatch_skills (i : Item) :
    decide (dispatch i = some Bucket.skills) = decide (i.type = "skill") := by
  rcases type_cases i.type with h | h | h | h | h | h | h | h | h | h | h | h
  case inr.inr.inr.inr.inr.inr.inr.inr.inr.inr.inr =>
    obtain ⟨h1, h2, h3, h4, h5, h6, h7, h8, h9, h10, h11⟩ := h
    simp [dispatch, h1, h2, h3, h4, h5, h6, h7, h8, h9, h10, h11]
  case inr.inr.inr.inr.inr.inr.inr.inr.inr.inr.inl =>
    rcases systemType_cases i.systemType with g | g | g | g | g | g
    case inr.inr.inr.inr.inr =>
      obtain ⟨g1, g2, g3, g4, g5⟩ := g
      simp [dispatch, h, g1, g2, g3, g4, g5]
    all_goals simp [dispatch, h, g]
  all_goals simp [dispatch, h]

theorem dispatch_burdens (i : Item) :
    decide (dispatch i = some Bucket.burdens) = decide (i.type = "burden") := by
  rcases type_cases i.type with h | h | h | h | h | h | h | h | h | h | h | h
  case inr.inr.inr.inr.inr.inr.inr.inr.inr.inr.inr =>
    obtain ⟨h1, h2, h3, h4, h5, h6, h7, h8, h9, h10, h11⟩ := h
    simp [dispatch, h1, h2, h3, h4, h5, h6, h7, h8, h9, h10, h11]
  case inr.inr.inr.inr.inr.inr.inr.inr.inr.inr.inl =>
    rcases systemType_cases i.systemType with g | g | g | g | g | g
    case inr.inr.inr.inr.inr =>
      obtain ⟨g1, g2, g3, g4, g5⟩ := g
      simp [dispatch, h, g1, g2, g3, g4, g5]
    all_goals simp [dispatch, h, g]
  all_goals simp [dispatch, h]

theorem dispatch_wounds (i : Item) :
    decide (dispatch i = some Bucket.wounds) = decide (i.type = "wound") := by
  rcases type_cases i.type with h | h | h | h | h | h | h | h | h | h | h | h
  case inr.inr.inr.inr.inr.inr.inr.inr.inr.inr.inr =>
    obtain ⟨h1, h2, h3, h4, h5, h6, h7, h8, h9, h10, h11⟩ := h
    simp [dispatch, h1, h2, h3, h4, h5, h6, h7, h8, h9, h10, h11]
  case inr.inr.inr.inr.inr.inr.inr.inr.inr.inr.inl =>
    rcases systemType_cases i.systemType with g | g | g | g | g | g
    case inr.inr.inr.inr.inr =>
      obtain ⟨g1, g2, g3, g4, g5⟩ := g
      simp [dispatch, h, g1, g2, g3, g4, g5]
    all_goals simp [dispatch, h, g]
  all_goals simp [dispatch, h]

theorem dispatch_expenditures (i : Item) :
    decide (dispatch i = some Bucket.expenditures) = decide (i.type = "expenditure") := by
  rcases type_cases i.type with h | h | h | h | h | h | h | h | h | h | h | h
  case inr.inr.inr.inr.inr.inr.inr.inr.inr.inr.inr =>
    obtain ⟨h1, h2, h3, h4, h5, h6, h7, h8, h9, h10, h11⟩ := h
    simp [dispatch, h1, h2, h3, h4, h5, h6, h7, h8, h9, h10, h11]
  case inr.inr.inr.inr.inr.inr.inr.inr.inr.inr.inl =>
    rcases systemType_cases i.systemType with g | g | g | g | g | g
    case inr.inr.inr.inr.inr =>
      obtain ⟨g1, g2, g3, g4, g5⟩ := g
      simp [dispatch, h, g1, g2, g3, g4, g5]
    all_goals simp [dispatch, h, g]
  all_goals simp [dispatch, h]

theorem dispatch_rudiments (i : Item) :
    decide (dispatch i = some Bucket.rudiments) = decide (i.type = "rudiment") := by
  rcases type_cases i.type with h | h | h | h | h | h | h | h | h | h | h | h
  case inr.inr.inr.inr.inr.inr.inr.inr.inr.inr.inr =>
    obtain ⟨h1, h2, h3, h4, h5, h6, h7, h8, h9, h10, h11⟩ := h
    simp [dispatch, h1, h2, h3, h4, h5, h6, h7, h8, h9, h10, h11]
  case inr.inr.inr.inr.inr.inr.inr.inr.inr.inr.inl =>
    rcases systemType_cases i.systemType with g | g | g | g | g | g
    case inr.inr.inr.inr.inr =>
      obtain ⟨g1, g2, g3, g4, g5⟩ := g
      simp [dispatch, h, g1, g2, g3, g4, g5]
    all_goals simp [dispatch, h, g]
  all_goals simp [dispatch, h]

theorem dispatch_contacts (i : Item) :
    decide (dispatch i = some Bucket.contacts) = decide (i.type = "contact") := by
  rcases type_cases i.type with h | h | h | h | h | h | h | h | h | h | h | h
  case inr.inr.inr.inr.inr.inr.inr.inr.inr.inr.inr =>
    obtain ⟨h1, h2, h3, h4, h5, h6, h7, h8, h9, h10, h11⟩ := h
    simp [dispatch, h1, h2, h3, h4, h5, h6, h7, h8, h9, h10, h11]
  case inr.inr.inr.inr.inr.inr.inr.inr.inr.inr.inl =>
    rcases systemType_cases i.systemType with g | g | g | g | g | g
    case inr.inr.inr.inr.inr =>
      obtain ⟨g1, g2, g3, g4, g5⟩ := g
      simp [dispatch, h, g1, g2, g3, g4, g5]
    all_goals simp [dispatch, h, g]
  all_goals simp [dispatch, h]

theorem dispatch_movements (i : Item) :
    decide (dispatch i = some Bucket.movements) = decide (i.type = "movement") := by
  rcases type_cases i.type with h | h | h | h | h | h | h | h | h | h | h | h
  case inr.inr.inr.inr.inr.inr.inr.inr.inr.inr.inr =>
    obtain ⟨h1, h2, h3, h4, h5, h6, h7, h8, h9, h10, h11⟩ := h
    simp [dispatch, h1, h2, h3, h4, h5, h6, h7, h8, h9, h10, h11]
  case inr.inr.inr.inr.inr.inr.inr.inr.inr.inr.inl =>
    rcases systemType_cases i.systemType with g | g | g | g | g | g
    case inr.inr.inr.inr.inr =>
      obtain ⟨g1, g2, g3, g4, g5⟩ := g
      simp [dispatch, h, g1, g2, g3, g4, g5]
    all_goals simp [dispatch, h, g]
  all_goals simp [dispatch, h]

theorem dispatch_devotions (i : Item) :
    decide (dispatch i = some Bucket.devotions) = (decide (i.type = "characteristic") && decide (i.systemType = some "devotion")) := by
  rcases type_cases i.type with h | h | h | h | h | h | h | h | h | h | h | h
  case inr.inr.inr.inr.inr.inr.inr.inr.inr.inr.inr =>
    obtain ⟨h1, h2, h3, h4, h5, h6, h7, h8, h9, h10, h11⟩ := h
    simp [dispatch, h1, h2, h3, h4, h5, h6, h7, h8, h9, h10, h11]
  case inr.inr.inr.inr.inr.inr.inr.inr.inr.inr.inl =>
    rcases systemType_cases i.systemType with g | g | g | g | g | g
    case inr.inr.inr.inr.inr =>
      obtain ⟨g1, g2, g3, g4, g5⟩ := g
      simp [dispatch, h, g1, g2, g3, g4, g5]
    all_goals simp [dispatch, h, g]
  all_goals simp [dispatch, h]

theorem dispatch_descriptions (i : Item) :
    decide (dispatch i = some Bucket.descriptions) = (decide (i.type = "characteristic") && decide (i.systemType = some "description")) := by
  rcases type_cases i.type with h | h | h | h | h | h | h | h | h | h | h | h
  case inr.inr.inr.inr.inr.inr.inr.inr.inr.inr.inr =>
    obtain ⟨h1, h2, h3, h4, h5, h6, h7, h8, h9, h10, h11⟩ := h
    simp [dispatch, h1, h2, h3, h4, h5, h6, h7, h8, h9, h10, h11]
  case inr.inr.inr.inr.inr.inr.inr.inr.inr.inr.inl =>
    rcases systemType_cases i.systemType with g | g | g | g | g | g
    case inr.inr.inr.inr.inr =>
      obtain ⟨g1, g2, g3, g4, g5⟩ := g
      simp [dispatch, h, g1, g2, g3, g4, g5]
    all_goals simp [dispatch, h, g]
  all_goals simp [dispatch, h]

theorem dispatch_convictions (i : Item) :
    decide (dispatch i = some Bucket.convictions) = (decide (i.type = "characteristic") && decide (i.systemType = some "conviction")) := by
  rcases type_cases i.type with h | h | h | h | h | h | h | h | h | h | h | h
  case inr.inr.inr.inr.inr.inr.inr.inr.inr.inr.inr =>
    obtain ⟨h1, h2, h3, h4, h5, h6, h7, h8, h9, h10, h11⟩ := h
    simp [dispatch, h1, h2, h3, h4, h5, h6, h7, h8, h9, h10, h11]
  case inr.inr.inr.inr.inr.inr.inr.inr.inr.inr.inl =>
    rcases systemType_cases i.systemType with g | g | g | g | g | g
    case inr.inr.inr.inr.inr =>
      obtain ⟨g1, g2, g3, g4, g5⟩ := g
      simp [dispatch, h, g1, g2, g3, g4, g5]
    all_goals simp [dispatch, h, g]
  all_goals simp [dispatch, h]

theorem dispatch_reputations (i : Item) :
    decide (dispatch i = some Bucket.reputations) = (decide (i.type = "characteristic") && decide (i.systemType = some "reputation")) := by
  rcases type_cases i.type with h | h | h | h | h | h | h | h | h | h | h | h
  case inr.inr.inr.inr.inr.inr.inr.inr.inr.inr.inr =>
    obtain ⟨h1, h2, h3, h4, h5, h6, h7, h8, h9, h10, h11⟩ := h
    simp [dispatch, h1, h2, h3, h4, h5, h6, h7, h8, h9, h10, h11]
  case inr.inr.inr.inr.inr.inr.inr.inr.inr.inr.inl =>
    rcases systemType_cases i.systemType with g | g | g | g | g | g
    case inr.inr.inr.inr.inr =>
      obtain ⟨g1, g2, g3, g4, g5⟩ := g
      simp [dispatch, h, g1, g2, g3, g4, g5]
    all_goals simp [dispatch, h, g]
  all_goals simp [dispatch, h]

theorem dispatch_flaws (i : Item) :
    decide (dispatch i = some Bucket.flaws) = (decide (i.type = "characteristic") && decide (i.systemType = some "flaw")) := by
  rcases type_cases i.type with h | h | h | h | h | h | h | h | h | h | h | h
  case inr.inr.inr.inr.inr.inr.inr.inr.inr.inr.inr =>
    obtain ⟨h1, h2, h3, h4, h5, h6, h7, h8, h9, h10, h11⟩ := h
    simp [dispatch, h1, h2, h3, h4, h5, h6, h7, h8, h9, h10, h11]
  case inr.inr.inr.inr.inr.inr.inr.inr.inr.inr.inl =>
    rcases systemType_cases i.systemType with g | g | g | g | g | g
    case inr.inr.inr.inr.inr =>
      obtain ⟨g1, g2, g3, g4, g5⟩ := g
      simp [dispatch, h, g1, g2, g3, g4, g5]
    all_goals simp [dispatch, h, g]
  all_goals simp [dispatch, h]

theorem dispatch_characteristicContacts (i : Item) :
    decide (dispatch i = some Bucket.characteristicContacts) = false := by
  rcases type_cases i.type with h | h | h | h | h | h | h | h | h | h | h | h
  case inr.inr.inr.inr.inr.inr.inr.inr.inr.inr.inr =>
    obtain ⟨h1, h2, h3, h4, h5, h6, h7, h8, h9, h10, h11⟩ := h
    simp [dispatch, h1, h2, h3, h4, h5, h6, h7, h8, h9, h10, h11]
  case inr.inr.inr.inr.inr.inr.inr.inr.inr.inr.inl =>
    rcases systemType_cases i.systemType with g | g | g | g | g | g
    case inr.inr.inr.inr.inr =>
      obtain ⟨g1, g2, g3, g4, g5⟩ := g
      simp [dispatch, h, g1, g2, g3, g4, g5]
    all_goals simp [dispatch, h, g]
  all_goals simp [dispatch, h]

/-- C9 (`_prepareItems`): the sequential type checks equal a tag-to-bucket dispatch. Each of
gear, weapons, skills, burdens, wounds, expenditures, rudiments, contacts and movements is
the sublist, in input order, of the items (the input's items, their image defaulted in place)
whose type is item, weapon, skill, burden, wound, expenditure, rudiment, contact and movement;
each of the characteristic buckets devotions, descriptions, convictions, reputations and flaws
is the sublist of characteristic items with that `system.type`; every bucket is the sublist of
the items that `dispatch` sends to it, so an item is in at most one bucket; and
`characteristics.contacts` is empty. -/
theorem prepareItems_is_tag_dispatch (DEFAULT_TOKEN : String) (context : SheetContext) :
    (_prepareItems DEFAULT_TOKEN context).items = context.items.map (defaultImg DEFAULT_TOKEN)
    ∧ (∀ i : Item, (defaultImg DEFAULT_TOKEN i).type = i.type
        ∧ (defaultImg DEFAULT_TOKEN i).systemType = i.systemType)
    ∧ (_prepareItems DEFAULT_TOKEN context).gear
        = (_prepareItems DEFAULT_TOKEN context).items.filter (fun i => i.type = "item")
    ∧ (_prepareItems DEFAULT_TOKEN context).weapons
        = (_prepareItems DEFAULT_TOKEN context).items.filter (fun i => i.type = "weapon")
    ∧ (_prepareItems DEFAULT_TOKEN context).skills
        = (_prepareItems DEFAULT_TOKEN context).items.filter (fun i => i.type = "skill")
    ∧ (_prepareItems DEFAULT_TOKEN context).burdens
        = (_prepareItems DEFAULT_TOKEN context).items.filter (fun i => i.type = "burden")
    ∧ (_prepareItems DEFAULT_TOKEN context).wounds
        = (_prepareItems DEFAULT_TOKEN context).items.filter (fun i => i.type = "wound")
    ∧ (_prepareItems DEFAULT_TOKEN context).expenditures
        = (_prepareItems DEFAULT_TOKEN context).items.filter (fun i => i.type = "expenditure")
    ∧ (_prepareItems DEFAULT_TOKEN context).rudiments
        = (_prepareItems DEFAULT_TOKEN context).items.filter (fun i => i.type = "rudiment")
    ∧ (_prepareItems DEFAULT_TOKEN context).contacts
        = (_prepareItems DEFAULT_TOKEN context).items.filter (fun i => i.type = "contact")
    ∧ (_prepareItems DEFAULT_TOKEN context).movements
        = (_prepareItems DEFAULT_TOKEN context).items.filter (fun i => i.type = "movement")
    ∧ (_prepareItems DEFAULT_TOKEN context).characteristics.devotions
        = (_prepareItems DEFAULT_TOKEN context).items.filter
            (fun i => i.type = "characteristic" && i.systemType = some "devotion")
    ∧ (_prepareItems DEFAULT_TOKEN context).characteristics.descriptions
        = (_prepareItems DEFAULT_TOKEN context).items.filter
            (fun i => i.type = "characteristic" && i.systemType = some "description")
    ∧ (_prepareItems DEFAULT_TOKEN context).characteristics.convictions
        = (_prepareItems DEFAULT_TOKEN context).items.filter
            (fun i => i.type = "characteristic" && i.systemType = some "conviction")
    ∧ (_prepareItems DEFAULT_TOKEN context).characteristics.reputations
        = (_prepareItems DEFAULT_TOKEN context).items.filter
            (fun i => i.type = "characteristic" && i.systemType = some "reputation")
    ∧ (_prepareItems DEFAULT_TOKEN context).characteristics.flaws
        = (_prepareItems DEFAULT_TOKEN context).items.filter
            (fun i => i.type = "characteristic" && i.systemType = some "flaw")
    ∧ (_prepareItems DEFAULT_TOKEN context).characteristics.contacts = []
    ∧ (∀ k : Bucket, (_prepareItems DEFAULT_TOKEN context).bucket k
        = (_prepareItems DEFAULT_TOKEN context).items.filter (fun i => decide (dispatch i = some k)))
    ∧ (∀ (i : Item) (k₁ k₂ : Bucket), i ∈ (_prepareItems DEFAULT_TOKEN context).bucket k₁ →
        i ∈ (_prepareItems DEFAULT_TOKEN context).bucket k₂ → k₁ = k₂) := by
  have hb : ∀ k : Bucket, (_prepareItems DEFAULT_TOKEN context).bucket k
      = (_prepareItems DEFAULT_TOKEN context).items.filter
          (fun i => decide (dispatch i = some k)) := by
    intro k
    rw [prepared_bucket, foldl_allocate_bucket, init_bucket]
    rfl
  have hd : ∀ (k : Bucket) (p : Item → Bool), (∀ i, decide (dispatch i = some k) = p i) →
      (_prepareItems DEFAULT_TOKEN context).bucket k
        = (_prepareItems DEFAULT_TOKEN context).items.filter p := by
    intro k p hp
    rw [hb k]
    congr 1
    funext i
    exact hp i
  refine ⟨rfl, fun i => ⟨rfl, rfl⟩, ?_, ?_, ?_, ?_, ?_, ?_, ?_, ?_, ?_, ?_, ?_, ?_, ?_, ?_, ?_,
    hb, ?_⟩
  · exact hd Bucket.gear _ dispatch_gear
  · exact hd Bucket.weapons _ dispatch_weapons
  · exact hd Bucket.skills _ dispatch_skills
  · exact hd Bucket.burdens _ dispatch_burdens
  · exact hd Bucket.wounds _ dispatch_wounds
  · exact hd Bucket.expenditures _ dispatch_expenditures
  · exact hd Bucket.rudiments _ dispatch_rudiments
  · exact hd Bucket.contacts _ dispatch_contacts
  · exact hd Bucket.movements _ dispatch_movements
  · exact hd Bucket.devotions _ dispatch_devotions
  · exact hd Bucket.descriptions _ dispatch_descriptions
  · exact hd Bucket.convictions _ dispatch_convictions
  · exact hd Bucket.reputations _ dispatch_reputations
  · exact hd Bucket.flaws _ dispatch_flaws
  · have h := hd Bucket.characteristicContacts (fun _ => false) dispatch_characteristicContacts
    simpa [PreparedContext.bucket] using h
  · intro i k₁ k₂ h₁ h₂
    rw [hb k₁] at h₁
    rw [hb k₂] at h₂
    have e₁ := (List.mem_filter.mp h₁).2
    have e₂ := (List.mem_filter.mp h₂).2
    simp only [decide_eq_true_eq] at e₁ e₂
    rw [e₁] at e₂
    exact Option.some.inj e₂

/-- A character sheet holding one weapon. -/
theorem prepareItems_is_tag_dispatch_witness :
    (_prepareItems "icons/svg/mystery-man.svg" ⟨some "character", [sword], none⟩).weapons
      = (_prepareItems "icons/svg/mystery-man.svg" ⟨some "character", [sword], none⟩).items.filter
          (fun i => i.type = "weapon") :=
  (prepareItems_is_tag_dispatch "icons/svg/mystery-man.svg"
    ⟨some "character", [sword], none⟩).2.2.2.1

/-! ## The hotbar macros -/

/-- The search `game.macros.find` of `createItemMacro` finds nothing exactly when no macro has
the item's name and the command. -/
theorem find_macro_none (macros : List Macro) (name command : String) :
    macros.find? (fun m => decide (m.name = name) && decide (m.command = command)) = none
      ↔ ¬ ∃ m ∈ macros, m.name = name ∧ m.command = command := by
  rw [List.find?_eq_none]
  constructor
  · rintro h ⟨m, hm, hn, hc⟩
    exact h m hm (by simp [hn, hc])
  · intro h m hm hp
    simp only [Bool.and_eq_true, decide_eq_true_eq] at hp
    exact h ⟨m, hm, hp.1, hp.2⟩

/-- C6 (`createItemMacro`, get or create): for a drop of an owned Item (type `Item`, a uuid
containing `Actor.` or `Token.`, the item loaded) a macro is created exactly when the
collection has no macro with the item's name and the command
`game.bonfire.rollItemMacro("<uuid>");`, and it is appended with those fields; otherwise the
collection is unchanged and an existing macro with that name and command is assigned to the
slot; a second call with the same drop data on the resulting state leaves the collection
unchanged. -/
theorem createItemMacro_get_or_create (fromDropData : DropData → Option Item) (w : World)
    (data : DropData) (slot slot₂ : Nat) (item : Item)
    (htype : data.type = "Item")
    (howned : includes data.uuid "Actor." = true ∨ includes data.uuid "Token." = true)
    (hitem : fromDropData data = some item) :
    ((¬ ∃ m ∈ w.macros, m.name = item.name
          ∧ m.command = "game.bonfire.rollItemMacro(\"" ++ data.uuid ++ "\");") →
      (createItemMacro fromDropData w data slot).1.macros
          = w.macros ++ [{ name := item.name, type := "script", img := item.img,
                           command := "game.bonfire.rollItemMacro(\"" ++ data.uuid ++ "\");",
                           itemMacroFlag := true }]
        ∧ (createItemMacro fromDropData w data slot).1.hotbar
          = w.hotbar ++ [({ name := item.name, type := "script", img := item.img,
                            command := "game.bonfire.rollItemMacro(\"" ++ data.uuid ++ "\");",
                            itemMacroFlag := true }, slot)])
    ∧ ((∃ m ∈ w.macros, m.name = item.name
          ∧ m.command = "game.bonfire.rollItemMacro(\"" ++ data.uuid ++ "\");") →
      (createItemMacro fromDropData w data slot).1.macros = w.macros
        ∧ ∃ m ∈ w.macros, m.name = item.name
            ∧ m.command = "game.bonfire.rollItemMacro(\"" ++ data.uuid ++ "\");"
            ∧ (createItemMacro fromDropData w data slot).1.hotbar = w.hotbar ++ [(m, slot)])
    ∧ ((createItemMacro fromDropData w data slot).1.macros.length = w.macros.length + 1
        ↔ ¬ ∃ m ∈ w.macros, m.name = item.name
            ∧ m.command = "game.bonfire.rollItemMacro(\"" ++ data.uuid ++ "\");")
    ∧ (createItemMacro fromDropData (createItemMacro fromDropData w data slot).1 data slot₂).1.macros
        = (createItemMacro fromDropData w data slot).1.macros := by
  have hguard : (!includes data.uuid "Actor." && !includes data.uuid "Token.") = false := by
    rcases howned with h | h <;> simp [h]
  have hnone : (¬ ∃ m ∈ w.macros, m.name = item.name
        ∧ m.command = "game.bonfire.rollItemMacro(\"" ++ data.uuid ++ "\");") →
      createItemMacro fromDropData w data slot
        = (World.mk
            (w.macros ++ [Macro.mk item.name "script" item.img
              ("game.bonfire.rollItemMacro(\"" ++ data.uuid ++ "\");") true])
            (w.hotbar ++ [(Macro.mk item.name "script" item.img
              ("game.bonfire.rollItemMacro(\"" ++ data.uuid ++ "\");") true, slot)])
            w.warnings, MacroResult.returnedFalse) := by
    intro h
    have hf := (find_macro_none w.macros item.name
      ("game.bonfire.rollItemMacro(\"" ++ data.uuid ++ "\");")).mpr h
    simp only [createItemMacro, htype, hguard, hitem, macroCommand, hf]
    simp
  have hsome : ∀ (v : World) (s : Nat), (∃ m ∈ v.macros, m.name = item.name
        ∧ m.command = "game.bonfire.rollItemMacro(\"" ++ data.uuid ++ "\");") →
      ∃ m ∈ v.macros, (m.name = item.name
        ∧ m.command = "game.bonfire.rollItemMacro(\"" ++ data.uuid ++ "\");")
        ∧ createItemMacro fromDropData v data s
          = ({ v with hotbar := v.hotbar ++ [(m, s)] }, MacroResult.returnedFalse) := by
    intro v s h
    cases hf : v.macros.find? (fun m => decide (m.name = item.name)
        && decide (m.command = "game.bonfire.rollItemMacro(\"" ++ data.uuid ++ "\");")) with
    | none =>
      exact absurd h ((find_macro_none v.macros item.name
        ("game.bonfire.rollItemMacro(\"" ++ data.uuid ++ "\");")).mp hf)
    | some m =>
      refine ⟨m, List.mem_of_find?_eq_some hf, ?_, ?_⟩
      · have hp := List.find?_some hf
        simpa using hp
      · simp only [createItemMacro, htype, hguard, hitem, macroCommand, hf]
        simp
  refine ⟨?_, ?_, ?_, ?_⟩
  · intro h
    rw [hnone h]
    exact ⟨rfl, rfl⟩
  · intro h
    obtain ⟨m, hm, hmatch, heq⟩ := hsome w slot h
    rw [heq]
    exact ⟨rfl, m, hm, hmatch.1, hmatch.2, rfl⟩
  · constructor
    · intro hlen hex
      obtain ⟨m, _, _, heq⟩ := hsome w slot hex
      rw [heq] at hlen
      simp at hlen
    · intro h
      rw [hnone h]
      simp
  · by_cases h : ∃ m ∈ w.macros, m.name = item.name
        ∧ m.command = "game.bonfire.rollItemMacro(\"" ++ data.uuid ++ "\");"
    · obtain ⟨m, hm, hmatch, heq⟩ := hsome w slot h
      rw [heq]
      obtain ⟨m₂, _, _, heq₂⟩ := hsome { w with hotbar := w.hotbar ++ [(m, slot)] } slot₂ h
      rw [heq₂]
    · rw [hnone h]
      obtain ⟨m₂, _, _, heq₂⟩ := hsome
        (World.mk
          (w.macros ++ [Macro.mk item.name "script" item.img
            ("game.bonfire.rollItemMacro(\"" ++ data.uuid ++ "\");") true])
          (w.hotbar ++ [(Macro.mk item.name "script" item.img
            ("game.bonfire.rollItemMacro(\"" ++ data.uuid ++ "\");") true, slot)])
          w.warnings) slot₂
        ⟨_, List.mem_append_right _ (List.mem_singleton.mpr rfl), rfl, rfl⟩
      rw [heq₂]

/-- C7 (`createItemMacro`, guards): when `data.type` is not `Item` the function returns
`undefined` and changes nothing; when the type is `Item` and the uuid contains neither
`Actor.` nor `Token.` it issues the warning "You can only create macro buttons for owned
Items" and leaves the macro collection and the hotbar unchanged; so the collection or the
hotbar changes only if the type is `Item` and the uuid contains `Actor.` or `Token.`. -/
theorem createItemMacro_guards (fromDropData : DropData → Option Item) (w : World)
    (data : DropData) (slot : Nat) :
    (data.type ≠ "Item" → createItemMacro fromDropData w data slot = (w, MacroResult.undefined))
    ∧ (data.type = "Item" → includes data.uuid "Actor." = false →
        includes data.uuid "Token." = false →
        createItemMacro fromDropData w data slot
          = ({ w with warnings :=
                w.warnings ++ ["You can only create macro buttons for owned Items"] },
              MacroResult.notification)
        ∧ (createItemMacro fromDropData w data slot).1.macros = w.macros
        ∧ (createItemMacro fromDropData w data slot).1.hotbar = w.hotbar)
    ∧ ((createItemMacro fromDropData w data slot).1.macros ≠ w.macros
          ∨ (createItemMacro fromDropData w data slot).1.hotbar ≠ w.hotbar →
        data.type = "Item"
          ∧ (includes data.uuid "Actor." = true ∨ includes data.uuid "Token." = true)) := by
  have h1 : data.type ≠ "Item" →
      createItemMacro fromDropData w data slot = (w, MacroResult.undefined) := by
    intro h
    simp [createItemMacro, h]
  have h2 : data.type = "Item" → includes data.uuid "Actor." = false →
      includes data.uuid "Token." = false →
      createItemMacro fromDropData w data slot
        = ({ w with warnings :=
              w.warnings ++ ["You can only create macro buttons for owned Items"] },
            MacroResult.notification) := by
    intro ht ha hk
    simp [createItemMacro, ht, ha, hk]
  refine ⟨h1, ?_, ?_⟩
  · intro ht ha hk
    rw [h2 ht ha hk]
    exact ⟨rfl, rfl, rfl⟩
  · intro hchange
    by_cases ht : data.type = "Item"
    · refine ⟨ht, ?_⟩
      by_contra hno
      have ha : includes data.uuid "Actor." = false := by
        cases hv : includes data.uuid "Actor."
        · rfl
        · exact absurd (Or.inl hv) hno
      have hk : includes data.uuid "Token." = false := by
        cases hv : includes data.uuid "Token."
        · rfl
        · exact absurd (Or.inr hv) hno
      rw [h2 ht ha hk] at hchange
      rcases hchange with h | h <;> exact absurd rfl h
    · rw [h1 ht] at hchange
      rcases hchange with h | h <;> exact absurd rfl h

/-- C8 (`rollItemMacro`): the item's roll is triggered exactly when the item was loaded and
has a parent; otherwise nothing is rolled and the warning names the item by its name when it
was loaded and by the uuid when it was not. -/
theorem rollItemMacro_rolls_iff_owned (fromDropData : DropData → Option Item)
    (itemUuid : String) :
    (∀ item : Item, rollItemMacro fromDropData itemUuid = MacroRoll.rolled item
        ↔ (fromDropData { type := "Item", uuid := itemUuid } = some item
            ∧ item.parent.isSome = true))
    ∧ (fromDropData { type := "Item", uuid := itemUuid } = none →
        rollItemMacro fromDropData itemUuid
          = MacroRoll.warned ("Could not find item " ++ itemUuid
              ++ ". You may need to delete and recreate this macro."))
    ∧ (∀ item : Item, fromDropData { type := "Item", uuid := itemUuid } = some item →
        item.parent = none →
        rollItemMacro fromDropData itemUuid
          = MacroRoll.warned ("Could not find item " ++ item.name
              ++ ". You may need to delete and recreate this macro.")) := by
  refine ⟨?_, ?_, ?_⟩
  · intro item
    cases hf : fromDropData { type := "Item", uuid := itemUuid } with
    | none => simp [rollItemMacro, hf]
    | some loaded =>
      cases hp : loaded.parent with
      | none =>
        simp only [rollItemMacro, hf, hp, Option.isNone_none, if_true]
        constructor
        · intro h
          cases h
        · rintro ⟨h, hs⟩
          cases h
          rw [hp] at hs
          cases hs
      | some p =>
        simp only [rollItemMacro, hf, hp, Option.isNone_some, Bool.false_eq_true, if_false,
          MacroRoll.rolled.injEq, Option.some.injEq]
        constructor
        · intro h
          subst h
          simp [hp]
        · rintro ⟨h, _⟩
          exact h
  · intro h
    simp [rollItemMacro, h]
  · intro item h hp
    simp [rollItemMacro, h, hp]

/-- A first drop of the sword on an empty collection, then a second drop on the result. -/
theorem createItemMacro_get_or_create_witness :
    (createItemMacro (fun _ => some sword)
        (createItemMacro (fun _ => some sword) ⟨[], [], []⟩ ⟨"Item", "Actor.a1.Item.i1"⟩ 1).1
        ⟨"Item", "Actor.a1.Item.i1"⟩ 2).1.macros
      = (createItemMacro (fun _ => some sword) ⟨[], [], []⟩ ⟨"Item", "Actor.a1.Item.i1"⟩ 1).1.macros :=
  (createItemMacro_get_or_create (fun _ => some sword) ⟨[], [], []⟩ ⟨"Item", "Actor.a1.Item.i1"⟩
    1 2 sword rfl (Or.inl (by decide)) rfl).2.2.2

/-- A drop of an unowned item, whose uuid is `Item.i1`. -/
theorem createItemMacro_guards_witness :
    createItemMacro (fun _ => some sword) ⟨[], [], []⟩ ⟨"Item", "Item.i1"⟩ 1
        = (⟨[], [], ["You can only create macro buttons for owned Items"]⟩,
            MacroResult.notification)
      ∧ (createItemMacro (fun _ => some sword) ⟨[], [], []⟩ ⟨"Item", "Item.i1"⟩ 1).1.macros = []
      ∧ (createItemMacro (fun _ => some sword) ⟨[], [], []⟩ ⟨"Item", "Item.i1"⟩ 1).1.hotbar = [] :=
  (createItemMacro_guards (fun _ => some sword) ⟨[], [], []⟩ ⟨"Item", "Item.i1"⟩ 1).2.1 rfl
    (by decide) (by decide)

/-- A macro whose item no longer loads. -/
theorem rollItemMacro_rolls_iff_owned_witness :
    rollItemMacro (fun _ => none) "Actor.a1.Item.i1"
      = MacroRoll.warned
          ("Could not find item " ++ "Actor.a1.Item.i1"
            ++ ". You may need to delete and recreate this macro.") :=
  (rollItemMacro_rolls_iff_owned (fun _ => none) "Actor.a1.Item.i1").2.1 rfl

/-! ## Lemmas on the formula parser -/

theorem segmentChar_not_special (c : Char) (h : c = '.' ∨ isSegmentChar c = true) :
    c.isWhitespace = false ∧ c ≠ '+' ∧ c ≠ '-' := by
  refine ⟨?_, ?_, ?_⟩
  · cases hw : c.isWhitespace with
    | false => rfl
    | true =>
      exfalso
      simp only [Char.isWhitespace, Bool.or_eq_true, decide_eq_true_eq] at hw
      rcases hw with ((hw | hw) | hw) | hw <;> subst hw <;> revert h <;> decide
  · intro hc
    subst hc
    revert h
    decide
  · intro hc
    subst hc
    revert h
    decide

theorem segmentsOk_chars : ∀ (cs : List Char) (started : Bool), segmentsOk started cs = true →
    ∀ c ∈ cs, c = '.' ∨ isSegmentChar c = true := by
  intro cs
  induction cs with
  | nil => intro _ _ c hc; cases hc
  | cons x xs ih =>
    intro started h c hc
    rw [segmentsOk] at h
    by_cases hx : x = '.'
    · rw [if_pos hx] at h
      simp only [Bool.and_eq_true] at h
      rcases List.mem_cons.mp hc with rfl | hc
      · exact Or.inl hx
      · exact ih false h.2 c hc
    · rw [if_neg hx] at h
      simp only [Bool.and_eq_true] at h
      rcases List.mem_cons.mp hc with rfl | hc
      · exact Or.inr h.1
      · exact ih true h.2 c hc

theorem segmentsOk_append_dot : ∀ (a c : List Char) (started : Bool),
    segmentsOk started (a ++ '.' :: c) = (segmentsOk started a && segmentsOk false c) := by
  intro a
  induction a with
  | nil => intro c started; simp [segmentsOk]
  | cons x xs ih =>
    intro c started
    by_cases hx : x = '.'
    · simp [segmentsOk, hx, ih, Bool.and_assoc]
    · simp [segmentsOk, hx, ih, Bool.and_assoc]

theorem splitTerms_append (a rest : List Char) (h : ∀ c ∈ a, c ≠ '+' ∧ c ≠ '-') :
    splitTerms (a ++ rest) = (a ++ (splitTerms rest).1, (splitTerms rest).2) := by
  induction a with
  | nil => simp
  | cons x xs ih =>
    have hx := h x (List.mem_cons_self x xs)
    have ih' := ih (fun c hc => h c (List.mem_cons_of_mem x hc))
    simp [splitTerms, hx.1, hx.2, ih']

theorem splitTerms_plus (rest : List Char) :
    splitTerms ('+' :: rest) = ([], (false, (splitTerms rest).1) :: (splitTerms rest).2) := by
  simp [splitTerms]

/-- The characters of a path are neither whitespace nor signs. -/
theorem path_chars (s : List Char) (hs : isPath s = true) :
    ∀ c ∈ s, c.isWhitespace = false ∧ c ≠ '+' ∧ c ≠ '-' :=
  fun c hc => segmentChar_not_special c (segmentsOk_chars s false hs c hc)

/-- The path `skillSuites.<skill>.<field>` is a path when the skill key and the field are. -/
theorem isPath_skill (s field : List Char) (hs : isPath s = true) (hf : isPath field = true) :
    isPath ("skillSuites".toList ++ '.' :: (s ++ '.' :: field)) = true := by
  unfold isPath at *
  rw [segmentsOk_append_dot, segmentsOk_append_dot, hs, hf]
  decide

/-- The parser on the text `<dice>+@skillSuites.<s>.value+@skillSuites.<s>.mod`: the result
is decided by the dice term alone, the two placeholders being well formed. -/
theorem parseChars_skill (die s : List Char)
    (hdie : ∀ c ∈ die, c.isWhitespace = false ∧ c ≠ '+' ∧ c ≠ '-') (hs : isPath s = true) :
    parseChars
        (die ++ '+' :: '@' :: ("skillSuites".toList ++ '.' :: (s ++ '.' :: "value".toList))
          ++ '+' :: '@' :: ("skillSuites".toList ++ '.' :: (s ++ '.' :: "mod".toList)))
      = match parseDice die with
        | Except.error e => Except.error e
        | Except.ok dice =>
          Except.ok
            { terms := [dice]
              modifierExpression :=
                [{ negative := false
                   term := ModTerm.placeholder
                    (String.mk ("skillSuites".toList ++ '.' :: (s ++ '.' :: "value".toList))) },
                 { negative := false
                   term := ModTerm.placeholder
                    (String.mk ("skillSuites".toList ++ '.' :: (s ++ '.' :: "mod".toList))) }] } := by
  have hv := isPath_skill s "value".toList hs (by decide)
  have hm := isPath_skill s "mod".toList hs (by decide)
  have hpv := path_chars _ hv
  have hpm := path_chars _ hm
  have hat : ∀ (p : List Char), (∀ c ∈ p, c.isWhitespace = false ∧ c ≠ '+' ∧ c ≠ '-') →
      ∀ c ∈ '@' :: p, c.isWhitespace = false ∧ c ≠ '+' ∧ c ≠ '-' := by
    intro p hp c hc
    rcases List.mem_cons.mp hc with rfl | hc
    · decide
    · exact hp c hc
  have hfilter : (die ++ '+' :: '@' :: ("skillSuites".toList ++ '.' :: (s ++ '.' :: "value".toList))
        ++ '+' :: '@' :: ("skillSuites".toList ++ '.' :: (s ++ '.' :: "mod".toList))).filter
          (fun c => !c.isWhitespace)
      = die ++ '+' :: '@' :: ("skillSuites".toList ++ '.' :: (s ++ '.' :: "value".toList))
        ++ '+' :: '@' :: ("skillSuites".toList ++ '.' :: (s ++ '.' :: "mod".toList)) := by
    rw [List.filter_eq_self]
    intro c hc
    have hw : c.isWhitespace = false := by
      rcases List.mem_append.mp hc with hc | hc
      · rcases List.mem_append.mp hc with hc | hc
        · exact (hdie c hc).1
        · rcases List.mem_cons.mp hc with rfl | hc
          · decide
          · exact (hat _ hpv c hc).1
      · rcases List.mem_cons.mp hc with rfl | hc
        · decide
        · exact (hat _ hpm c hc).1
    simp [hw]
  have hsplit : splitTerms
        (die ++ '+' :: '@' :: ("skillSuites".toList ++ '.' :: (s ++ '.' :: "value".toList))
          ++ '+' :: '@' :: ("skillSuites".toList ++ '.' :: (s ++ '.' :: "mod".toList)))
      = (die, [(false, '@' :: ("skillSuites".toList ++ '.' :: (s ++ '.' :: "value".toList))),
               (false, '@' :: ("skillSuites".toList ++ '.' :: (s ++ '.' :: "mod".toList)))]) := by
    have h3 := splitTerms_append ('@' :: ("skillSuites".toList ++ '.' :: (s ++ '.' :: "mod".toList)))
      [] (fun c hc => (hat _ hpm c hc).2)
    have h2 := splitTerms_append
      ('@' :: ("skillSuites".toList ++ '.' :: (s ++ '.' :: "value".toList)))
      ('+' :: '@' :: ("skillSuites".toList ++ '.' :: (s ++ '.' :: "mod".toList)))
      (fun c hc => (hat _ hpv c hc).2)
    have h1 := splitTerms_append die
      ('+' :: ('@' :: ("skillSuites".toList ++ '.' :: (s ++ '.' :: "value".toList))
        ++ '+' :: '@' :: ("skillSuites".toList ++ '.' :: (s ++ '.' :: "mod".toList))))
      (fun c hc => (hdie c hc).2)
    rw [List.append_nil] at h3
    rw [splitTerms_plus, h3] at h2
    rw [splitTerms_plus, h2] at h1
    simpa [splitTerms] using h1
  unfold parseChars
  simp only [hfilter, hsplit, parseModifiers, parseModifier, hv, hm, if_true]

/-- The characters of the two skill formulas that `_onRoll` builds. -/
theorem skill_formula_chars (die : String) (s : String) :
    (die ++ "+@skillSuites." ++ s ++ ".value+@skillSuites." ++ s ++ ".mod").toList
      = die.toList ++ '+' :: '@' :: ("skillSuites".toList ++ '.' :: (s.toList ++ '.' :: "value".toList))
          ++ '+' :: '@' :: ("skillSuites".toList ++ '.' :: (s.toList ++ '.' :: "mod".toList)) := by
  simp [String.toList, String.data_append, List.append_assoc]

theorem skill_path_string (s : String) (field : String) :
    String.mk ("skillSuites".toList ++ '.' :: (s.toList ++ '.' :: field.toList))
      = "skillSuites." ++ s ++ "." ++ field := by
  apply String.ext
  simp [String.toList, String.data_append, List.append_assoc]

/-- The parser on the skill formula that `_onRoll` builds from the dice text `die`. -/
theorem parseChars_skill_formula (die s : String)
    (hdie : ∀ c ∈ die.toList, c.isWhitespace = false ∧ c ≠ '+' ∧ c ≠ '-')
    (hs : isPath s.toList = true) :
    parseChars (die ++ "+@skillSuites." ++ s ++ ".value+@skillSuites." ++ s ++ ".mod").toList
      = match parseDice die.toList with
        | Except.error e => Except.error e
        | Except.ok dice =>
          Except.ok
            { terms := [dice]
              modifierExpression :=
                [{ negative := false
                   term := ModTerm.placeholder ("skillSuites." ++ s ++ ".value") },
                 { negative := false
                   term := ModTerm.placeholder ("skillSuites." ++ s ++ ".mod") }] } := by
  have hv : "skillSuites." ++ s ++ "." ++ "value" = "skillSuites." ++ s ++ ".value" := by
    rw [String.append_assoc ("skillSuites." ++ s)]
    rfl
  have hm : "skillSuites." ++ s ++ "." ++ "mod" = "skillSuites." ++ s ++ ".mod" := by
    rw [String.append_assoc ("skillSuites." ++ s)]
    rfl
  rw [skill_formula_chars, parseChars_skill die.toList s.toList hdie hs,
    skill_path_string, skill_path_string, hv, hm]

theorem trained_text (s : String) :
    "d20x+@skillSuites." ++ s ++ ".value+@skillSuites." ++ s ++ ".mod"
      = "d20x" ++ "+@skillSuites." ++ s ++ ".value+@skillSuites." ++ s ++ ".mod" := by
  have h : ("d20x+@skillSuites." : String) = "d20x" ++ "+@skillSuites." := by decide
  rw [h]

theorem untrained_text (s : String) :
    "d12x+@skillSuites." ++ s ++ ".value+@skillSuites." ++ s ++ ".mod"
      = "d12x" ++ "+@skillSuites." ++ s ++ ".value+@skillSuites." ++ s ++ ".mod" := by
  have h : ("d12x+@skillSuites." : String) = "d12x" ++ "+@skillSuites." := by decide
  rw [h]

/-- The parser reads the trained formula as one exploding d20 plus the two placeholders. -/
theorem parse_trained (s : String) (hs : isPath s.toList = true) :
    parse ("d20x+@skillSuites." ++ s ++ ".value+@skillSuites." ++ s ++ ".mod")
      = Except.ok
          { terms := [{ count := 1, sides := 20, exploding := true }]
            modifierExpression :=
              [{ negative := false, term := ModTerm.placeholder ("skillSuites." ++ s ++ ".value") },
               { negative := false, term := ModTerm.placeholder ("skillSuites." ++ s ++ ".mod") }] } := by
  rw [trained_text, parse, parseChars_skill_formula "d20x" s (by decide) hs]
  rfl

/-- The parser reads the untrained formula as one exploding d12 plus the two placeholders. -/
theorem parse_untrained (s : String) (hs : isPath s.toList = true) :
    parse ("d12x+@skillSuites." ++ s ++ ".value+@skillSuites." ++ s ++ ".mod")
      = Except.ok
          { terms := [{ count := 1, sides := 12, exploding := true }]
            modifierExpression :=
              [{ negative := false, term := ModTerm.placeholder ("skillSuites." ++ s ++ ".value") },
               { negative := false, term := ModTerm.placeholder ("skillSuites." ++ s ++ ".mod") }] } := by
  rw [untrained_text, parse, parseChars_skill_formula "d12x" s (by decide) hs]
  rfl

/-- The resolver fails on the first placeholder that the context lacks. -/
theorem resolveModifiers_missing (ctx : StatContext) :
    ∀ ms : List Modifier, (∃ p ∈ placeholders ms, ctx.lookup p = none) →
      ∃ q ∈ placeholders ms, ctx.lookup q = none
        ∧ resolveModifiers ctx ms = Except.error (FormulaError.unresolvedReference q) := by
  intro ms
  induction ms with
  | nil => rintro ⟨p, hp, _⟩; cases hp
  | cons m rest ih =>
    rintro ⟨p, hp, hnone⟩
    cases hterm : m.term with
    | literal n =>
      simp only [placeholders, hterm] at hp ⊢
      obtain ⟨q, hq, hqn, hres⟩ := ih ⟨p, hp, hnone⟩
      exact ⟨q, hq, hqn, by simp only [resolveModifiers, hterm, hres]⟩
    | placeholder p₀ =>
      simp only [placeholders, hterm] at hp ⊢
      cases hl : ctx.lookup p₀ with
      | none =>
        exact ⟨p₀, List.mem_cons_self _ _, hl, by simp only [resolveModifiers, hterm, hl]⟩
      | some v =>
        have hp' : p ∈ placeholders rest := by
          rcases List.mem_cons.mp hp with h | h
          · rw [h, hl] at hnone
            cases hnone
          · exact h
        obtain ⟨q, hq, hqn, hres⟩ := ih ⟨p, hp', hnone⟩
        exact ⟨q, List.mem_cons_of_mem _ hq, hqn, by simp only [resolveModifiers, hterm, hl, hres]⟩

/-- An exploding die that meets `n` maximum faces and then a lower face rolls those `n + 1`
faces and leaves the rest of the source. -/
theorem rollChain_explode (S k : Nat) (rest : List Nat) (hk : k < S) :
    ∀ n : Nat, rollChain S true (List.replicate n S ++ k :: rest)
      = some (List.replicate n { value := S, exploded := true } ++ [{ value := k, exploded := false }],
          rest) := by
  intro n
  induction n with
  | zero =>
    have hne : k ≠ S := Nat.ne_of_lt hk
    simp [rollChain, hne]
  | succ n ih =>
    have hstep : rollChain S true (S :: (List.replicate n S ++ k :: rest))
        = match rollChain S true (List.replicate n S ++ k :: rest) with
          | none => none
          | some (chain, rest) => some ({ value := S, exploded := true } :: chain, rest) := by
      simp [rollChain]
    rw [List.replicate_succ, List.cons_append, hstep, ih]
    rfl

theorem chainTotal_explode (S k n : Nat) :
    chainTotal (List.replicate n { value := S, exploded := true } ++ [{ value := k, exploded := false }])
      = n * S + k := by
  simp [chainTotal, List.map_append, List.sum_append, List.map_replicate, List.sum_replicate]

/-! ## The dice core -/

/-- C2 (formula mini-language): for every skill key that is a non-empty sequence of
dot-separated path segments, both skill formulas that `_onRoll` builds, the trained
`d20x+@skillSuites.<skill>.value+@skillSuites.<skill>.mod` and the untrained `d12x` one, are
sentences of the mini-language `[N]d S[xS] [{+|-} term]*`: the parser reads each as one
exploding die, `N` defaulting to 1 and the lone `x` standing for `xS` (`d20x` parses as
`1d20x20` does, `d12x` as `1d12x12`), followed by the two placeholder terms; so does the
formula that the handler hands to the roller. -/
theorem skill_formula_in_grammar (s : String) (hs : isPath s.toList = true) :
    isSentence ("d20x+@skillSuites." ++ s ++ ".value+@skillSuites." ++ s ++ ".mod") = true
    ∧ isSentence ("d12x+@skillSuites." ++ s ++ ".value+@skillSuites." ++ s ++ ".mod") = true
    ∧ parse ("d20x+@skillSuites." ++ s ++ ".value+@skillSuites." ++ s ++ ".mod")
      = Except.ok
          { terms := [{ count := 1, sides := 20, exploding := true }]
            modifierExpression :=
              [{ negative := false, term := ModTerm.placeholder ("skillSuites." ++ s ++ ".value") },
               { negative := false, term := ModTerm.placeholder ("skillSuites." ++ s ++ ".mod") }] }
    ∧ parse ("d12x+@skillSuites." ++ s ++ ".value+@skillSuites." ++ s ++ ".mod")
      = Except.ok
          { terms := [{ count := 1, sides := 12, exploding := true }]
            modifierExpression :=
              [{ negative := false, term := ModTerm.placeholder ("skillSuites." ++ s ++ ".value") },
               { negative := false, term := ModTerm.placeholder ("skillSuites." ++ s ++ ".mod") }] }
    ∧ parse ("d20x+@skillSuites." ++ s ++ ".value+@skillSuites." ++ s ++ ".mod")
      = parse ("1d20x20" ++ "+@skillSuites." ++ s ++ ".value+@skillSuites." ++ s ++ ".mod")
    ∧ parse ("d12x+@skillSuites." ++ s ++ ".value+@skillSuites." ++ s ++ ".mod")
      = parse ("1d12x12" ++ "+@skillSuites." ++ s ++ ".value+@skillSuites." ++ s ++ ".mod")
    ∧ (∀ (rollMode : String) (actor : Actor) (ev : RollEvent) (suite : SkillSuite),
        truthy ev.dataset.roll = true → ev.dataset.type = some "skill" →
        ev.dataset.skill = some s → itemRollBranch actor ev = none →
        actor.skillSuites s = some suite →
        ∃ formula, (_onRoll rollMode actor ev).rolledFormula = some formula
          ∧ isSentence formula = true) := by
  have ht : isSentence
      ("d20x+@skillSuites." ++ s ++ ".value+@skillSuites." ++ s ++ ".mod") = true := by
    simp only [isSentence, parse_trained s hs]
  have hu : isSentence
      ("d12x+@skillSuites." ++ s ++ ".value+@skillSuites." ++ s ++ ".mod") = true := by
    simp only [isSentence, parse_untrained s hs]
  refine ⟨ht, hu, parse_trained s hs, parse_untrained s hs, ?_, ?_, ?_⟩
  · rw [parse_trained s hs, parse, parseChars_skill_formula "1d20x20" s (by decide) hs]
    rfl
  · rw [parse_untrained s hs, parse, parseChars_skill_formula "1d12x12" s (by decide) hs]
    rfl
  · intro rollMode actor ev suite hroll htype hskill hitem hsuite
    rw [onRoll_skill_outcome rollMode actor ev s suite hroll htype hskill hitem hsuite]
    cases suite.trained with
    | true => exact ⟨_, rfl, ht⟩
    | false => exact ⟨_, rfl, hu⟩

/-- The skill key `alchemy`. -/
theorem skill_formula_in_grammar_witness :
    isSentence "d20x+@skillSuites.alchemy.value+@skillSuites.alchemy.mod" = true
    ∧ isSentence "d12x+@skillSuites.alchemy.value+@skillSuites.alchemy.mod" = true :=
  ⟨(skill_formula_in_grammar "alchemy" (by decide)).1,
    (skill_formula_in_grammar "alchemy" (by decide)).2.1⟩

/-- C3 (exploding dice): for an exploding die of size `S` and a random source that returns
`S` exactly `n` times and then `k < S`, the chain rolls exactly `n + 1` dice and totals
`n * S + k`; the evaluation of the one-die exploding term gives that total plus the modifier
value, with the chain as breakdown; and the formula `1d6x6` on the sequence 6, 6, 3 gives
total 15 with a chain of length 3. -/
theorem exploding_chain_total (S n k : Nat) (rest : List Nat) (modifiers : List Modifier)
    (v : Int) (hk : k < S) (hv : modifierValue modifiers = some v) :
    rollChain S true (List.replicate n S ++ k :: rest)
      = some (List.replicate n { value := S, exploded := true }
                ++ [{ value := k, exploded := false }], rest)
    ∧ (List.replicate n ({ value := S, exploded := true } : Face)
        ++ [({ value := k, exploded := false } : Face)]).length = n + 1
    ∧ chainTotal (List.replicate n { value := S, exploded := true }
        ++ [{ value := k, exploded := false }]) = n * S + k
    ∧ evaluate { terms := [{ count := 1, sides := S, exploding := true }],
                 modifierExpression := modifiers } (List.replicate n S ++ k :: rest)
      = some { total := ((n * S + k : Nat) : Int) + v
               termBreakdown := [List.replicate n { value := S, exploded := true }
                                  ++ [{ value := k, exploded := false }]]
               isCriticalFace := decide (0 < n) }
    ∧ rollFormula "1d6x6" [] [6, 6, 3]
      = Except.ok (some { total := 15
                          termBreakdown := [[{ value := 6, exploded := true },
                                             { value := 6, exploded := true },
                                             { value := 3, exploded := false }]]
                          isCriticalFace := true }) := by
  refine ⟨rollChain_explode S k rest hk n, by simp, chainTotal_explode S k n, ?_, rfl⟩
  have hcrit : chainIsCritical S (List.replicate n { value := S, exploded := true }
      ++ [{ value := k, exploded := false }]) = decide (0 < n) := by
    cases n with
    | zero => simp [chainIsCritical, Nat.ne_of_lt hk]
    | succ m => simp [chainIsCritical, List.replicate_succ]
  simp only [evaluate, rollTerms, rollDice, rollChain_explode S k rest hk n, hv,
    List.map_cons, List.map_nil, List.sum_cons, List.sum_nil, chainTotal_explode,
    List.any_cons, List.any_nil, hcrit, Bool.or_false, Nat.add_zero, List.flatten_cons,
    List.flatten_nil, List.append_nil]

/-- The scenario of the specification: size 6, two maximum faces, then a 3. -/
theorem exploding_chain_total_witness :
    rollChain 6 true [6, 6, 3] = some ([⟨6, true⟩, ⟨6, true⟩, ⟨3, false⟩], [])
    ∧ chainTotal [⟨6, true⟩, ⟨6, true⟩, ⟨3, false⟩] = 15 :=
  ⟨(exploding_chain_total 6 2 3 [] [] 0 (by decide) rfl).1,
    (exploding_chain_total 6 2 3 [] [] 0 (by decide) rfl).2.2.1⟩

/-- C4, as stated, fails on its last clause: the commented difficulty experiment compares the
player's roll total with the GM's roll total (`1d20+i`) by `gmTotal <= playerTotal`, so at
14 against 14 the player succeeds, while the opposed check between two roll results of total
14 fails the actor. -/
theorem difficulty_experiment_tie_succeeds :
    difficultyExperimentSucceeded 14 14 = true
    ∧ attackExperimentSucceeded 14 14 = false
    ∧ (classify { total := 14, termBreakdown := [[⟨14, false⟩]], isCriticalFace := false }
        (Target.opposed { total := 14, termBreakdown := [[⟨14, false⟩]],
                          isCriticalFace := false })).succeeded = false := by
  refine ⟨by decide, by decide, by decide⟩

/-- C4, amended: an opposed check succeeds exactly when the actor's total is strictly greater
than the target's, so a tie fails the actor; a static check succeeds exactly when the actor's
total is at least the difficulty, so 14 against 14 succeeds; of the source's commented
experiments, the attack experiment compares the two roll totals strictly
(`gmTotal < playerTotal`) and agrees with the opposed check, while the difficulty experiment
compares the two roll totals non-strictly (`gmTotal <= playerTotal`): it succeeds exactly
when the opposed check succeeds or the totals tie. -/
theorem classify_conventions_and_experiments (actorResult targetResult : RollResult)
    (difficulty : Int) :
    ((classify actorResult (Target.opposed targetResult)).succeeded = true
        ↔ actorResult.total > targetResult.total)
    ∧ (actorResult.total = targetResult.total →
        (classify actorResult (Target.opposed targetResult)).succeeded = false)
    ∧ ((classify actorResult (Target.static difficulty)).succeeded = true
        ↔ actorResult.total ≥ difficulty)
    ∧ (actorResult.total = 14 → (classify actorResult (Target.static 14)).succeeded = true)
    ∧ attackExperimentSucceeded targetResult.total actorResult.total
        = (classify actorResult (Target.opposed targetResult)).succeeded
    ∧ difficultyExperimentSucceeded targetResult.total actorResult.total
        = ((classify actorResult (Target.opposed targetResult)).succeeded
            || decide (actorResult.total = targetResult.total))
    ∧ (actorResult.total = targetResult.total →
        difficultyExperimentSucceeded targetResult.total actorResult.total = true
          ∧ attackExperimentSucceeded targetResult.total actorResult.total = false) := by
  refine ⟨?_, ?_, ?_, ?_, ?_, ?_, ?_⟩
  · simp [classify]
  · intro h
    simp [classify, h]
  · simp [classify]
  · intro h
    simp [classify, h]
  · simp [classify, attackExperimentSucceeded]
  · simp only [classify, difficultyExperimentSucceeded]
    by_cases h : targetResult.total ≤ actorResult.total
    · rcases lt_or_eq_of_le h with hlt | heq
      · simp [h, hlt]
      · simp [heq]
    · have hne : actorResult.total ≠ targetResult.total := fun he => h (le_of_eq he.symm)
      have hlt : ¬ targetResult.total < actorResult.total := fun hl => h (le_of_lt hl)
      simp [h, hne, hlt]
  · intro h
    simp [difficultyExperimentSucceeded, attackExperimentSucceeded, h]

/-- The scenario of the specification, actor total 14 against difficulty 14, and a tie of two
rolls. -/
theorem classify_conventions_and_experiments_witness :
    (classify { total := 14, termBreakdown := [[⟨14, false⟩]], isCriticalFace := false }
        (Target.static 14)).succeeded = true
    ∧ (classify { total := 14, termBreakdown := [[⟨14, false⟩]], isCriticalFace := false }
        (Target.opposed { total := 14, termBreakdown := [[⟨14, false⟩]],
                          isCriticalFace := false })).succeeded = false :=
  ⟨(classify_conventions_and_experiments
      { total := 14, termBreakdown := [[⟨14, false⟩]], isCriticalFace := false }
      { total := 14, termBreakdown := [[⟨14, false⟩]], isCriticalFace := false } 14).2.2.2.1 rfl,
    (classify_conventions_and_experiments
      { total := 14, termBreakdown := [[⟨14, false⟩]], isCriticalFace := false }
      { total := 14, termBreakdown := [[⟨14, false⟩]], isCriticalFace := false } 14).2.1 rfl⟩

/-- C5 (unresolved references): if some placeholder of the formula has no entry in the stat
context, resolution fails with `UnresolvedReference` naming a placeholder of the formula that
the context lacks (the first such one; the missing path itself when it is the only one), and
gives no resolved formula, so nothing is substituted for the missing attribute; and for the
skill roll that `_onRoll` builds, resolved against the actor's roll data, a missing
`skillSuites.<s>.value` or `skillSuites.<s>.mod` makes the roll fail with
`UnresolvedReference` naming that path. -/
theorem unresolved_reference_not_defaulted (formula : RollFormula) (ctx : StatContext) :
    (∀ p ∈ placeholders formula.modifierExpression, ctx.lookup p = none →
      (∃ q ∈ placeholders formula.modifierExpression, ctx.lookup q = none
          ∧ resolve formula ctx = Except.error (FormulaError.unresolvedReference q))
        ∧ (∀ resolved : RollFormula, resolve formula ctx ≠ Except.ok resolved)
        ∧ ((∀ q ∈ placeholders formula.modifierExpression, ctx.lookup q = none → q = p) →
            resolve formula ctx = Except.error (FormulaError.unresolvedReference p)))
    ∧ (∀ (s rollMode : String) (actor : Actor) (ev : RollEvent) (suite : SkillSuite)
        (source : List Nat),
        isPath s.toList = true → truthy ev.dataset.roll = true →
        ev.dataset.type = some "skill" → ev.dataset.skill = some s →
        itemRollBranch actor ev = none → actor.skillSuites s = some suite →
        ∃ (roll : Roll) (message : RollMessage),
          _onRoll rollMode actor ev = RollOutcome.formulaRoll roll message
            ∧ roll.data = actor.rollData
            ∧ (actor.rollData.lookup ("skillSuites." ++ s ++ ".value") = none →
                rollFormula roll.formula roll.data source
                  = Except.error
                      (FormulaError.unresolvedReference ("skillSuites." ++ s ++ ".value")))
            ∧ (actor.rollData.lookup ("skillSuites." ++ s ++ ".value") ≠ none →
                actor.rollData.lookup ("skillSuites." ++ s ++ ".mod") = none →
                rollFormula roll.formula roll.data source
                  = Except.error
                      (FormulaError.unresolvedReference ("skillSuites." ++ s ++ ".mod")))) := by
  constructor
  · intro p hp hnone
    obtain ⟨q, hq, hqn, hres⟩ :=
      resolveModifiers_missing ctx formula.modifierExpression ⟨p, hp, hnone⟩
    have hr : resolve formula ctx = Except.error (FormulaError.unresolvedReference q) := by
      simp only [resolve, hres]
    refine ⟨⟨q, hq, hqn, hr⟩, ?_, ?_⟩
    · intro resolved h
      rw [hr] at h
      cases h
    · intro honly
      rw [hr, honly q hq hqn]
  · intro s rollMode actor ev suite source hs hroll htype hskill hitem hsuite
    refine ⟨_, _, onRoll_skill_outcome rollMode actor ev s suite hroll htype hskill hitem hsuite,
      rfl, ?_, ?_⟩
    · intro hmissing
      cases suite.trained with
      | true =>
        simp only [rollFormula, if_true, parse_trained s hs, resolve, resolveModifiers, hmissing]
      | false =>
        simp only [rollFormula, Bool.false_eq_true, if_false, parse_untrained s hs, resolve,
          resolveModifiers, hmissing]
    · intro hvalue hmissing
      obtain ⟨v, hv⟩ := Option.ne_none_iff_exists'.mp hvalue
      cases suite.trained with
      | true =>
        simp only [rollFormula, if_true, parse_trained s hs, resolve, resolveModifiers, hv,
          hmissing]
      | false =>
        simp only [rollFormula, Bool.false_eq_true, if_false, parse_untrained s hs, resolve,
          resolveModifiers, hv, hmissing]

/-- The scenario of the specification without a `mod` entry: the untrained alchemy roll of an
actor whose roll data hold only `skillSuites.alchemy.value`. -/
theorem unresolved_reference_not_defaulted_witness :
    resolve
        { terms := [{ count := 1, sides := 12, exploding := true }]
          modifierExpression :=
            [{ negative := false, term := ModTerm.placeholder "skillSuites.alchemy.value" },
             { negative := false, term := ModTerm.placeholder "skillSuites.alchemy.mod" }] }
        [("skillSuites.alchemy.value", 3)]
      = Except.error (FormulaError.unresolvedReference "skillSuites.alchemy.mod") :=
  ((unresolved_reference_not_defaulted
      { terms := [{ count := 1, sides := 12, exploding := true }]
        modifierExpression :=
          [{ negative := false, term := ModTerm.placeholder "skillSuites.alchemy.value" },
           { negative := false, term := ModTerm.placeholder "skillSuites.alchemy.mod" }] }
      [("skillSuites.alchemy.value", 3)]).1 "skillSuites.alchemy.mod" (by decide) (by decide)).2.2
    (by decide)

end Bonfire
